import Mathlib

/-!
# Verification of the lambda-ansible-deployment pipeline

A shallow embedding, in Lean 4, of the two deployment-pipeline variants in
this repository:

* `src/lambda/ansible_lambda.py`  — the Secrets-Manager-backed variant
  (`_copy_embedded_ansible`, `_get_json_secret`, `_write_ssh_key`,
  `_create_inventory`, `_run_playbook`, `lambda_handler`);
* `src/lambda/deployment_lambda.py` — the SSM-Parameter-Store-backed variant
  (`AnsibleDeploymentLambda` with `setup_work_directory`,
  `download_ansible_package`, `setup_ssh_key`, `execute_ansible_playbook`,
  `get_inventory_mapping`, `cleanup`, and its `lambda_handler`).

Python values flowing through the handlers are modelled by `PyVal`, Python
exceptions by `PyExn`; fallible Python code is translated to
`Except PyExn _`.  External effects (the secret store, the filesystem, the
subprocess invocation) are supplied by explicit "world" records, and the
handlers are total functions from an input event and a world to a structured
outcome that records the HTTP-style response together with the facts the
specification speaks about (secret-store call count, workspace life cycle,
credential write locations, subprocess invocation).

Standard-library behaviour the source relies on is modelled where the claims
depend on it: Python string slicing `s[-n:]`, `str.strip`, `str.lower` /
`str.upper` (on the ASCII range used by site identifiers),
`base64.b64decode`, UTF-8 decoding, a subset of `json.loads`, the zip-entry
handling of `shutil.unpack_archive` (`_unpack_zipfile`) and of
`zipfile.ZipFile.extractall` (member-name sanitisation).
-/

set_option autoImplicit false

namespace LambdaAnsible

/-! ## Python string primitives -/

/-- Python slice `s[-n:]`.  For `n = 0` Python's `s[-0:]` is `s[0:]`, i.e. the
whole string; for `0 < n` it is the trailing `min n (length s)` characters. -/
def pySliceLast (n : Nat) (s : String) : String :=
  if n = 0 then s
  else if s.length ≤ n then s
  else ⟨s.data.drop (s.length - n)⟩

/-- Python whitespace, as used by `str.strip()` with no argument. -/
def pyIsSpace (c : Char) : Bool :=
  c = ' ' || c = '\t' || c = '\n' || c = '\r' || c = '\x0b' || c = '\x0c'

/-- Python `str.strip()` (no argument): drop whitespace from both ends. -/
def pyStrip (s : String) : String :=
  ⟨((s.data.dropWhile pyIsSpace).reverse.dropWhile pyIsSpace).reverse⟩

/-- `str.lower` on a single code point, restricted to the ASCII letters which
site identifiers use (Python's full Unicode case folding agrees with this on
the ASCII range). -/
def lowerNat (n : Nat) : Nat :=
  if 65 ≤ n ∧ n ≤ 90 then n + 32 else n

/-- `str.upper` on a single code point (ASCII range). -/
def upperNat (n : Nat) : Nat :=
  if 97 ≤ n ∧ n ≤ 122 then n - 32 else n

/-- A valid code point stays valid under ASCII lowering. -/
theorem isValidChar_lowerNat {n : Nat} (h : n.isValidChar) :
    (lowerNat n).isValidChar := by
  unfold lowerNat
  split
  · left; omega
  · exact h

/-- A valid code point stays valid under ASCII uppering. -/
theorem isValidChar_upperNat {n : Nat} (h : n.isValidChar) :
    (upperNat n).isValidChar := by
  unfold upperNat
  split
  · left; omega
  · exact h

/-- ASCII lowering of a character (models Python `str.lower` per character). -/
def pyLowerChar (c : Char) : Char :=
  Char.ofNat (lowerNat c.toNat)

/-- ASCII uppering of a character (models Python `str.upper` per character). -/
def pyUpperChar (c : Char) : Char :=
  Char.ofNat (upperNat c.toNat)

/-- Python `str.lower()` (ASCII model). -/
def pyLower (s : String) : String := ⟨s.data.map pyLowerChar⟩

/-- Python `str.upper()` (ASCII model). -/
def pyUpper (s : String) : String := ⟨s.data.map pyUpperChar⟩

theorem lowerNat_upperNat (n : Nat) : lowerNat (upperNat n) = lowerNat n := by
  unfold lowerNat upperNat
  by_cases h : 97 ≤ n ∧ n ≤ 122
  · rw [if_pos h, if_pos (by omega : 65 ≤ n - 32 ∧ n - 32 ≤ 90),
      if_neg (by omega : ¬ (65 ≤ n ∧ n ≤ 90))]
    omega
  · rw [if_neg h]

theorem toNat_ofNat_valid {n : Nat} (h : n.isValidChar) :
    (Char.ofNat n).toNat = n := by
  unfold Char.ofNat
  rw [dif_pos h]
  unfold Char.ofNatAux Char.toNat
  simp [UInt32.toNat]

/-- Lowering after uppering agrees with plain lowering, per character. -/
theorem pyLowerChar_pyUpperChar (c : Char) :
    pyLowerChar (pyUpperChar c) = pyLowerChar c := by
  unfold pyLowerChar pyUpperChar
  have hv : (upperNat c.toNat).isValidChar := isValidChar_upperNat c.valid
  rw [toNat_ofNat_valid hv, lowerNat_upperNat]

/-- Lowering after uppering agrees with plain lowering, on strings. -/
theorem pyLower_pyUpper (s : String) : pyLower (pyUpper s) = pyLower s := by
  unfold pyLower pyUpper
  simp [List.map_map, Function.comp_def, pyLowerChar_pyUpperChar]

/-! ## Substring containment -/

/-- `needle` occurs contiguously inside `hay` (Python's `needle in hay`). -/
def strHas (hay needle : String) : Prop :=
  ∃ pre post : List Char, hay.data = pre ++ needle.data ++ post

/-- Boolean substring test, used where the source tests `'..' in name`. -/
def listSub (needle : List Char) : List Char → Bool
  | [] => needle.isEmpty
  | c :: rest => needle.isPrefixOf (c :: rest) || listSub needle rest

theorem isPrefixOf_append (needle post : List Char) :
    needle.isPrefixOf (needle ++ post) = true := by
  induction needle with
  | nil => simp [List.isPrefixOf]
  | cons c cs ih => simp [List.isPrefixOf, ih]

/-- Python `s.startswith(pre)`. -/
def strStarts (s pre : String) : Bool :=
  pre.data.isPrefixOf s.data

/-- `(a ++ b).data` unfolds to the concatenation of the two `data` lists. -/
theorem strData_append (a b : String) : (a ++ b).data = a.data ++ b.data := rfl

/-- A string starts with any of its leading concatenation parts. -/
theorem strStarts_append (pre rest : String) :
    strStarts (pre ++ rest) pre = true := by
  unfold strStarts
  rw [strData_append]
  exact isPrefixOf_append pre.data rest.data

/-- When `nd` occurs contiguously inside a list, `listSub` reports `true`;
this is the direction needed to relate a component-level occurrence of `".."`
to the source's substring test `'..' in name`. -/
theorem listSub_append (nd pre post : List Char) :
    listSub nd ((pre ++ nd) ++ post) = true := by
  induction pre with
  | nil =>
    simp only [List.nil_append]
    cases h : nd ++ post with
    | nil =>
      have : nd = [] := (List.append_eq_nil.mp h).1
      subst this
      simp [listSub, List.isEmpty]
    | cons c rest =>
      simp only [listSub]
      rw [← h]
      simp [isPrefixOf_append]
  | cons c cs ih =>
    have hassoc : ((c :: cs) ++ nd) ++ post = c :: ((cs ++ nd) ++ post) := by
      simp
    rw [hassoc]
    simp only [listSub, Bool.or_eq_true]
    right
    simpa [List.append_assoc] using ih

/-! ## Python values and exceptions -/

/-- The Python values that flow through the two handlers: JSON-decodable
data plus `None`. -/
inductive PyVal where
  | none
  | bool (b : Bool)
  | int (n : Int)
  | str (s : String)
  | list (xs : List PyVal)
  | dict (kvs : List (String × PyVal))

/-- The Python exceptions the two modules can raise.  Each carries the
message text that `str(e)` would produce (for `KeyError` and
`TimeoutExpired`, `str(e)` is reconstructed in `pyStrExn`). -/
inductive PyExn where
  | attributeError (msg : String)
  | keyError (key : String)
  | typeError (msg : String)
  | valueError (msg : String)
  | jsonDecodeError (msg : String)
  | binasciiError (msg : String)
  | unicodeDecodeError (msg : String)
  | runtimeError (msg : String)
  | clientError (msg : String)
  | oserror (msg : String)
  | timeoutExpired (cmdRepr : String)
deriving DecidableEq

/-- `str(e)` for the exceptions above; `KeyError` stringifies as the quoted
key, `subprocess.TimeoutExpired` as
`Command '<cmd repr>' timed out after 900 seconds` (the timeout in both
source call sites is the literal 900). -/
def pyStrExn : PyExn → String
  | .attributeError m => m
  | .keyError k => "'" ++ k ++ "'"
  | .typeError m => m
  | .valueError m => m
  | .jsonDecodeError m => m
  | .binasciiError m => m
  | .unicodeDecodeError m => m
  | .runtimeError m => m
  | .clientError m => m
  | .oserror m => m
  | .timeoutExpired cmdRepr =>
      "Command '" ++ cmdRepr ++ "' timed out after 900 seconds"

/-- Python truthiness, as used by `if not service_name` and `all([...])`. -/
def pyTruthy : PyVal → Bool
  | .none => false
  | .bool b => b
  | .int n => n ≠ 0
  | .str s => s ≠ ""
  | .list xs => !xs.isEmpty
  | .dict kvs => !kvs.isEmpty

/-! Python `repr` for the modelled values (string escapes are not modelled;
the handlers only feed strings, numbers and `None` into replies). -/

mutual
def pyRepr : PyVal → String
  | .none => "None"
  | .bool true => "True"
  | .bool false => "False"
  | .int n => toString n
  | .str s => "'" ++ s ++ "'"
  | .list xs => "[" ++ String.intercalate ", " (pyReprList xs) ++ "]"
  | .dict kvs => "\x7b" ++ String.intercalate ", " (pyReprDict kvs) ++ "\x7d"
def pyReprList : List PyVal → List String
  | [] => []
  | v :: vs => pyRepr v :: pyReprList vs
def pyReprDict : List (String × PyVal) → List String
  | [] => []
  | (k, v) :: kvs => ("'" ++ k ++ "': " ++ pyRepr v) :: pyReprDict kvs
end

/-- Python `str(v)` as used by f-string interpolation (`f"{k}={v}"`). -/
def pyStrOf : PyVal → String
  | .str s => s
  | v => pyRepr v

/-- First-match lookup in a dict's entry list (dict keys are unique in the
modelled payloads). -/
def dictGet (kvs : List (String × PyVal)) (k : String) : Option PyVal :=
  (kvs.find? (fun kv => kv.1 == k)).map (fun kv => kv.2)

/-- Python `v.get(k, default)`: `AttributeError` when `v` is not a dict. -/
def pyGetD (v : PyVal) (k : String) (dflt : PyVal) : Except PyExn PyVal :=
  match v with
  | .dict kvs => .ok ((dictGet kvs k).getD dflt)
  | _ => .error (.attributeError "object has no attribute get")

/-- Python `v.get(k)` (default `None`). -/
def pyGet (v : PyVal) (k : String) : Except PyExn PyVal :=
  pyGetD v k .none

/-- Python `v[k]` for a string key: `KeyError` when absent, `TypeError` when
`v` is not a dict. -/
def pySubscript (v : PyVal) (k : String) : Except PyExn PyVal :=
  match v with
  | .dict kvs =>
    match dictGet kvs k with
    | some x => .ok x
    | Option.none => .error (.keyError k)
  | _ => .error (.typeError "value is not subscriptable by a string key")

/-- Python `v.lower()`: `AttributeError` on non-strings. -/
def pyLowerMethod (v : PyVal) : Except PyExn String :=
  match v with
  | .str s => .ok (pyLower s)
  | _ => .error (.attributeError "object has no attribute lower")

/-- Python `v.upper()`: `AttributeError` on non-strings. -/
def pyUpperMethod (v : PyVal) : Except PyExn String :=
  match v with
  | .str s => .ok (pyUpper s)
  | _ => .error (.attributeError "object has no attribute upper")

/-! ## `base64.b64decode` (validate=False) and UTF-8 decoding

Models the standard-library behaviour the two modules rely on:
`b64decode` with the default `validate=False` discards characters outside
the base64 alphabet, stops at the first `=` padding character, and raises
`binascii.Error` when the number of data characters is `4k+1` or when a
non-multiple-of-four count has no padding; `bytes.decode()` performs strict
UTF-8 decoding. -/

def b64Index (c : Char) : Option Nat :=
  if 'A' ≤ c ∧ c ≤ 'Z' then some (c.toNat - 65)
  else if 'a' ≤ c ∧ c ≤ 'z' then some (c.toNat - 97 + 26)
  else if '0' ≤ c ∧ c ≤ '9' then some (c.toNat - 48 + 52)
  else if c = '+' then some 62
  else if c = '/' then some 63
  else Option.none

/-- Reassemble 6-bit groups into bytes (2, 3 or 4 symbols → 1, 2 or 3
bytes). -/
def b64Groups : List Nat → List Nat
  | a :: b :: c :: d :: rest =>
    (a * 4 + b / 16) :: ((b % 16) * 16 + c / 4) :: ((c % 4) * 64 + d)
      :: b64Groups rest
  | [a, b] => [a * 4 + b / 16]
  | [a, b, c] => [a * 4 + b / 16, (b % 16) * 16 + c / 4]
  | _ => []

def b64DecodeChars (cs : List Char) : Except PyExn (List Nat) :=
  let filtered := cs.filter (fun c => (b64Index c).isSome || c = '=')
  let mainPart := filtered.takeWhile (fun c => c ≠ '=')
  let r := mainPart.length % 4
  if r = 1 then
    .error (.binasciiError "Invalid base64-encoded string")
  else if r ≠ 0 ∧ mainPart.length = filtered.length then
    .error (.binasciiError "Incorrect padding")
  else
    .ok (b64Groups (mainPart.map (fun c => (b64Index c).getD 0)))

/-- `base64.b64decode` applied to a `str` argument. -/
def b64DecodeStr (s : String) : Except PyExn (List Nat) :=
  b64DecodeChars s.data

/-- `base64.b64decode` applied to a `bytes` argument (bytes viewed as code
points below 256). -/
def b64DecodeBytes (bytes : List Nat) : Except PyExn (List Nat) :=
  b64DecodeChars (bytes.map Char.ofNat)

/-- Strict UTF-8 decoding (`bytes.decode()`), fuel-recursive on the byte
list length. -/
def utf8DecodeAux : Nat → List Nat → Option (List Char)
  | _, [] => some []
  | 0, _ :: _ => Option.none
  | fuel + 1, b :: rest =>
    if b < 128 then
      (utf8DecodeAux fuel rest).map (fun cs => Char.ofNat b :: cs)
    else if 194 ≤ b ∧ b ≤ 223 then
      match rest with
      | b2 :: rest2 =>
        if 128 ≤ b2 ∧ b2 ≤ 191 then
          (utf8DecodeAux fuel rest2).map
            (fun cs => Char.ofNat ((b - 192) * 64 + (b2 - 128)) :: cs)
        else Option.none
      | _ => Option.none
    else if 224 ≤ b ∧ b ≤ 239 then
      match rest with
      | b2 :: b3 :: rest2 =>
        let lo2 : Nat := if b = 224 then 160 else 128
        let hi2 : Nat := if b = 237 then 159 else 191
        if (lo2 ≤ b2 ∧ b2 ≤ hi2) ∧ (128 ≤ b3 ∧ b3 ≤ 191) then
          (utf8DecodeAux fuel rest2).map
            (fun cs =>
              Char.ofNat ((b - 224) * 4096 + (b2 - 128) * 64 + (b3 - 128)) :: cs)
        else Option.none
      | _ => Option.none
    else if 240 ≤ b ∧ b ≤ 244 then
      match rest with
      | b2 :: b3 :: b4 :: rest2 =>
        let lo2 : Nat := if b = 240 then 144 else 128
        let hi2 : Nat := if b = 244 then 143 else 191
        if (lo2 ≤ b2 ∧ b2 ≤ hi2) ∧ (128 ≤ b3 ∧ b3 ≤ 191) ∧
            (128 ≤ b4 ∧ b4 ≤ 191) then
          (utf8DecodeAux fuel rest2).map
            (fun cs =>
              Char.ofNat ((b - 240) * 262144 + (b2 - 128) * 4096 +
                (b3 - 128) * 64 + (b4 - 128)) :: cs)
        else Option.none
      | _ => Option.none
    else Option.none

/-- `bytes.decode('utf-8')`: strict decoding, `UnicodeDecodeError` on
invalid input. -/
def utf8Decode (bytes : List Nat) : Except PyExn String :=
  match utf8DecodeAux bytes.length bytes with
  | some cs => .ok ⟨cs⟩
  | Option.none =>
    .error (.unicodeDecodeError "invalid continuation byte")

/-! ## A model of `json.loads`

Covers the JSON subset the deployment payloads use: objects, arrays,
strings (with single-character escapes, `\u` not modelled), integers,
`true`/`false`/`null`.  Fuel-recursive; the fuel is sized off the input
length, so well-formed inputs never exhaust it. -/

def jsonWs (c : Char) : Bool :=
  c = ' ' || c = '\t' || c = '\n' || c = '\r'

def skipWs (cs : List Char) : List Char :=
  cs.dropWhile jsonWs

def jsonEscapeChar (c : Char) : Option Char :=
  if c = '"' then some '"'
  else if c = '\\' then some '\\'
  else if c = '/' then some '/'
  else if c = 'n' then some '\n'
  else if c = 't' then some '\t'
  else if c = 'r' then some '\r'
  else if c = 'b' then some (Char.ofNat 8)
  else if c = 'f' then some (Char.ofNat 12)
  else Option.none

/-- Parse a JSON string body, positioned just after the opening quote. -/
def parseJsonString : Nat → List Char → Option (String × List Char)
  | _, [] => Option.none
  | 0, _ :: _ => Option.none
  | fuel + 1, c :: rest =>
    if c = '"' then some ("", rest)
    else if c = '\\' then
      match rest with
      | e :: rest2 =>
        match jsonEscapeChar e with
        | some ec =>
          (parseJsonString fuel rest2).map
            (fun sr => (⟨ec :: sr.1.data⟩, sr.2))
        | Option.none => Option.none
      | [] => Option.none
    else
      (parseJsonString fuel rest).map (fun sr => (⟨c :: sr.1.data⟩, sr.2))

def isDigit (c : Char) : Bool := '0' ≤ c && c ≤ '9'

def natOfDigits (ds : List Char) : Nat :=
  ds.foldl (fun acc c => acc * 10 + (c.toNat - 48)) 0

def parseJsonInt (cs : List Char) : Option (Int × List Char) :=
  match cs with
  | '-' :: rest =>
    let ds := rest.takeWhile isDigit
    if ds.isEmpty then Option.none
    else some (-(natOfDigits ds : Int), rest.drop ds.length)
  | _ =>
    let ds := cs.takeWhile isDigit
    if ds.isEmpty then Option.none
    else some ((natOfDigits ds : Int), cs.drop ds.length)

mutual
def parseJson : Nat → List Char → Option (PyVal × List Char)
  | 0, _ => Option.none
  | fuel + 1, cs =>
    match skipWs cs with
    | [] => Option.none
    | c :: rest =>
      if c = '"' then
        (parseJsonString (rest.length + 1) rest).map
          (fun sr => (.str sr.1, sr.2))
      else if c = 'n' then
        match rest with
        | 'u' :: 'l' :: 'l' :: rest2 => some (.none, rest2)
        | _ => Option.none
      else if c = 't' then
        match rest with
        | 'r' :: 'u' :: 'e' :: rest2 => some (.bool true, rest2)
        | _ => Option.none
      else if c = 'f' then
        match rest with
        | 'a' :: 'l' :: 's' :: 'e' :: rest2 => some (.bool false, rest2)
        | _ => Option.none
      else if c = '\x7b' then
        match skipWs rest with
        | '\x7d' :: rest2 => some (.dict [], rest2)
        | rest2 => (parseJsonMembers fuel rest2).map
            (fun mr => (.dict mr.1, mr.2))
      else if c = '[' then
        match skipWs rest with
        | ']' :: rest2 => some (.list [], rest2)
        | rest2 => (parseJsonItems fuel rest2).map
            (fun ir => (.list ir.1, ir.2))
      else
        (parseJsonInt (c :: rest)).map (fun nr => (.int nr.1, nr.2))

/-- Parse `"key": value (, "key": value)* }`, positioned at the first key. -/
def parseJsonMembers :
    Nat → List Char → Option (List (String × PyVal) × List Char)
  | 0, _ => Option.none
  | fuel + 1, cs =>
    match skipWs cs with
    | '"' :: rest =>
      match parseJsonString (rest.length + 1) rest with
      | some (k, rest2) =>
        match skipWs rest2 with
        | ':' :: rest3 =>
          match parseJson fuel rest3 with
          | some (v, rest4) =>
            match skipWs rest4 with
            | ',' :: rest5 =>
              (parseJsonMembers fuel rest5).map
                (fun mr => ((k, v) :: mr.1, mr.2))
            | '\x7d' :: rest5 => some ([(k, v)], rest5)
            | _ => Option.none
          | Option.none => Option.none
        | _ => Option.none
      | Option.none => Option.none
    | _ => Option.none

/-- Parse `value (, value)* ]`, positioned at the first value. -/
def parseJsonItems : Nat → List Char → Option (List PyVal × List Char)
  | 0, _ => Option.none
  | fuel + 1, cs =>
    match parseJson fuel cs with
    | some (v, rest) =>
      match skipWs rest with
      | ',' :: rest2 =>
        (parseJsonItems fuel rest2).map (fun ir => (v :: ir.1, ir.2))
      | ']' :: rest2 => some ([v], rest2)
      | _ => Option.none
    | Option.none => Option.none
end

/-- `json.loads`: raises `json.JSONDecodeError` (a `ValueError`) on
malformed input, `TypeError` when the argument is not a string. -/
def jsonLoads (v : PyVal) : Except PyExn PyVal :=
  match v with
  | .str s =>
    match parseJson (s.length + 2) s.data with
    | some (r, rest) =>
      if skipWs rest = [] then .ok r
      else .error (.jsonDecodeError "Extra data")
    | Option.none => .error (.jsonDecodeError "Expecting value")
  | _ =>
    .error (.typeError
      "the JSON object must be str, bytes or bytearray")

/-! ## C8 — truncation idempotence (`s[-n:]` in `_run_playbook` and the
handlers' `[-2000:]` / `[-4000:]` response tails) -/

theorem strLength_mk (l : List Char) : (String.mk l).length = l.length := rfl

theorem strLength_data (s : String) : s.length = s.data.length := rfl

theorem pySliceLast_length (n : Nat) (s : String) :
    (pySliceLast n s).length = if n = 0 then s.length else min n s.length := by
  unfold pySliceLast
  split <;> rename_i h0
  · simp [h0]
  · split <;> rename_i h1
    · omega
    · rw [strLength_mk, List.length_drop, ← strLength_data]
      omega

/-- A string no longer than the bound is returned unchanged. -/
theorem pySliceLast_of_le {n : Nat} {s : String} (h : s.length ≤ n) :
    pySliceLast n s = s := by
  unfold pySliceLast
  by_cases h0 : n = 0
  · rw [if_pos h0]
  · rw [if_neg h0, if_pos h]

/-- **C8**: taking the trailing-`n` tail of a string that is already a
trailing-`n` tail is the identity: the truncation `s[-n:]` used for
stdout/stderr tails is idempotent for every bound `n` and every string `s`. -/
theorem pySliceLast_idempotent (n : Nat) (s : String) :
    pySliceLast n (pySliceLast n s) = pySliceLast n s := by
  by_cases h0 : n = 0
  · simp [pySliceLast, h0]
  · have hlen : (pySliceLast n s).length ≤ n := by
      rw [pySliceLast_length, if_neg h0]
      exact Nat.min_le_left _ _
    exact pySliceLast_of_le hlen

/-! ## Path component splitting (`name.split('/')` and the component
sanitisation inside the archive extractors) -/

def splitChar (sep : Char) : List Char → List (List Char)
  | [] => [[]]
  | c :: cs =>
    match splitChar sep cs with
    | [] => [[]]
    | h :: t => if c = sep then [] :: h :: t else (c :: h) :: t

/-- A prefix of a list is also a contiguous run of it. -/
theorem infixOfPre {l1 l2 : List Char} (h : l1 <+: l2) :
    List.IsInfix l1 l2 := by
  obtain ⟨t, ht⟩ := h
  exact ⟨[], t, by simpa using ht⟩

/-- A contiguous run of the tail is a contiguous run of the whole list. -/
theorem infixOfCons {l1 l2 : List Char} {a : Char} (h : List.IsInfix l1 l2) :
    List.IsInfix l1 (a :: l2) := by
  obtain ⟨s, t, hst⟩ := h
  exact ⟨a :: s, t, by simp [hst]⟩

/-- `splitChar` never returns the empty list, its first component is a
prefix of the input, and every component is a contiguous run of the
input. -/
theorem splitChar_components (sep : Char) (cs : List Char) :
    ∃ h t, splitChar sep cs = h :: t ∧ h <+: cs ∧
      ∀ comp ∈ h :: t, List.IsInfix comp cs := by
  induction cs with
  | nil =>
    refine ⟨[], [], rfl, List.nil_prefix, ?_⟩
    intro comp hc
    simp at hc
    simp [hc]
  | cons c cs ih =>
    obtain ⟨h, t, hEq, hPre, hAll⟩ := ih
    by_cases hsep : c = sep
    · refine ⟨[], h :: t, ?_, List.nil_prefix, ?_⟩
      · simp [splitChar, hEq, hsep]
      · intro comp hc
        rcases List.mem_cons.mp hc with hc | hc
        · simp [hc]
        · exact infixOfCons (hAll comp hc)
    · refine ⟨c :: h, t, ?_, ?_, ?_⟩
      · simp [splitChar, hEq, hsep]
      · exact List.cons_prefix_cons.mpr ⟨rfl, hPre⟩
      · intro comp hc
        rcases List.mem_cons.mp hc with hc | hc
        · subst hc
          exact infixOfPre (List.cons_prefix_cons.mpr ⟨rfl, hPre⟩)
        · exact infixOfCons (hAll comp (List.mem_cons_of_mem _ hc))

/-- Every component produced by `splitChar` is a contiguous run of the
input list. -/
theorem mem_splitChar_isRun {sep : Char} {cs : List Char} {comp : List Char}
    (h : comp ∈ splitChar sep cs) : List.IsInfix comp cs := by
  obtain ⟨hd, t, hEq, _, hAll⟩ := splitChar_components sep cs
  exact hAll comp (hEq ▸ h)

/-! ## Bundle staging (`_copy_embedded_ansible` in ansible_lambda.py,
`download_ansible_package` in deployment_lambda.py) -/

/-- Entry filter of `shutil._unpack_zipfile`, the zip branch of
`shutil.unpack_archive`: an entry is silently skipped when its name starts
with `/` or contains `..` anywhere (the CPython source comment reads
"don't extract absolute paths or ones with .. in them"). -/
def unpackZipfileKeeps (name : String) : Bool :=
  !(strStarts name "/") && !(listSub ['.', '.'] name.data)

/-- The entry names `shutil.unpack_archive` extracts, each materialised at
`os.path.join(extract_dir, *name.split('/'))`. -/
def unpackZipfile (entries : List String) : List String :=
  entries.filter unpackZipfileKeeps

/-- How the automation bundle can be present in the deployed package. -/
inductive StagingSrc where
  | embeddedDir
  | bundleZip (entries : List String)
  | nothing

/-- `_copy_embedded_ansible` (ansible_lambda.py): copy the embedded
`ansible/` directory when present; else unpack `ansible_bundle.zip` into the
work dir and raise `RuntimeError` unless an `ansible/` directory exists
afterwards; else raise `RuntimeError`.  The archive is never rejected for
its entry names: unsafe entries are silently dropped by the library. -/
def copyEmbeddedAnsible (staging : StagingSrc) : Except PyExn Unit :=
  match staging with
  | .embeddedDir => .ok ()
  | .bundleZip entries =>
    if (unpackZipfile entries).any (fun n => strStarts n "ansible/") then
      .ok ()
    else .error (.runtimeError "ansible directory missing after unzip")
  | .nothing =>
    .error (.runtimeError
      "No embedded ansible (directory or zip) found in package")

/-- Member-name sanitisation performed by `zipfile.ZipFile.extractall`
(via `_extract_member`): split on the path separator, drop empty, `.` and
`..` components, and extract at the remaining components joined under the
target directory.  Every member is extracted; nothing is rejected. -/
def extractMemberComponents (name : String) : List (List Char) :=
  (splitChar '/' name.data).filter
    (fun x => !x.isEmpty && x != ['.'] && x != ['.', '.'])

/-! ## Secret resolution and credential materialisation -/

/-- A `boto3` `get_secret_value` response: at least one of `SecretString` /
`SecretBinary` is populated in real responses, but the model allows both
absent so that the code's own `KeyError` path is visible. -/
structure SecretResp where
  secretString : Option String
  secretBinary : Option (List Nat)

/-- Shared helper for the `SecretBinary` branch:
`base64.b64decode(resp['SecretBinary']).decode()`. -/
def secretBinaryText (resp : SecretResp) : Except PyExn String :=
  match resp.secretBinary with
  | some bytes =>
    match b64DecodeBytes bytes with
    | .ok decoded => utf8Decode decoded
    | .error e => .error e
  | Option.none => .error (.keyError "SecretBinary")

/-- `_get_json_secret` (ansible_lambda.py): when `'SecretString' in resp`,
parse it as JSON directly — no base64 decoding; only otherwise decode
`SecretBinary` from base64 before parsing. -/
def getJsonSecret (resp : SecretResp) : Except PyExn PyVal :=
  match resp.secretString with
  | some s => jsonLoads (.str s)
  | Option.none =>
    match secretBinaryText resp with
    | .ok text => jsonLoads (.str text)
    | .error e => .error e

/-- The key material selected by `_write_ssh_key` (ansible_lambda.py):
`key_secret.get('SecretString') or base64.b64decode(key_secret['SecretBinary']).decode()`
— Python `or` falls through exactly when `SecretString` is absent or the
empty string. -/
def writeSshKeyMaterial (resp : SecretResp) : Except PyExn String :=
  match resp.secretString with
  | some s => if s = "" then secretBinaryText resp else .ok s
  | Option.none => secretBinaryText resp

/-- The path `_write_ssh_key` writes to: `os.path.join(work_dir, "id_rsa")`. -/
def ansibleSshKeyPath (workDir : String) : String := workDir ++ "/id_rsa"

/-- The content written by `_write_ssh_key`: `key_material.strip() + "\n"`. -/
def ansibleSshKeyContent (material : String) : String :=
  pyStrip material ++ "\n"

/-- The path `setup_ssh_key` (deployment_lambda.py) writes to:
`os.path.join(os.path.expanduser('~/.ssh'), 'id_rsa')` — under the HOME
directory, not under the per-run workspace. -/
def setupSshKeyPath (home : String) : String := home ++ "/.ssh/id_rsa"

/-- The content transformation of `setup_ssh_key` (deployment_lambda.py):
try `base64.b64decode(ssh_key_content).decode('utf-8')` and use the decoded
text when the attempt succeeds, otherwise keep the original — the decision
is made by decodability, not by the payload's type. -/
def setupSshKeyContent (sshKeyContent : String) : String :=
  match b64DecodeStr sshKeyContent with
  | .ok bytes =>
    match utf8Decode bytes with
    | .ok decoded => decoded
    | .error _ => sshKeyContent
  | .error _ => sshKeyContent

/-! ## Secret-store identifiers (C10) -/

/-- ansible_lambda.py line 91/100: `site = body.get("site", "sit1").lower()`
then `vm_secret_id = f"demoapp/vm/{site}"`. -/
def ansibleVmSecretIdOfRaw (rawSite : String) : String :=
  "demoapp/vm/" ++ pyLower rawSite

/-- ansible_lambda.py line 101: the SSH-key secret id is constant. -/
def ansibleSshKeySecretId : String := "demoapp/vm/ssh-key"

/-- deployment_lambda.py line 208: `site = body.get('site', 'sit1').upper()`. -/
def deploymentSiteOfRaw (rawSite : String) : String := pyUpper rawSite

/-- deployment_lambda.py `get_inventory_mapping`: each parameter name embeds
`site.lower()`. -/
def deploymentParamId (site : String) (leaf : String) : String :=
  "/demoapp/vm/" ++ pyLower site ++ "/" ++ leaf

/-! ## Process executor -/

/-- The outcome of the underlying `subprocess.run` call, supplied by the
world: normal completion, wall-clock timeout (`TimeoutExpired`), or a
launch failure (`OSError`/`FileNotFoundError`). -/
inductive ProcOutcome where
  | completed (returncode : Int) (stdout stderr : String)
  | timedOut
  | launchError (msg : String)

/-- The result dict both executors build. -/
structure RunResult where
  returncode : Int
  stdout : String
  stderr : String
  success : Bool

/-- `-e` pair construction in `_run_playbook` (ansible_lambda.py lines
63–67): entries whose value is `None` are skipped (`if v is None:
continue`). -/
def ansibleExtraArgs : List (String × PyVal) → List String
  | [] => []
  | (k, v) :: rest =>
    match v with
    | .none => ansibleExtraArgs rest
    | v => "-e" :: (k ++ "=" ++ pyStrOf v) :: ansibleExtraArgs rest

/-- `-e` pair construction in `execute_ansible_playbook`
(deployment_lambda.py lines 117–119): every entry is rendered through
`f'{key}={value}'`, `None` values included (serialised as `"None"`). -/
def deploymentExtraArgs : List (String × PyVal) → List String
  | [] => []
  | (k, v) :: rest => "-e" :: (k ++ "=" ++ pyStrOf v) :: deploymentExtraArgs rest

/-- Python `repr` of a list of strings, as embedded in
`str(subprocess.TimeoutExpired)`. -/
def pyListRepr (xs : List String) : String :=
  "[" ++ String.intercalate ", " (xs.map (fun s => "'" ++ s ++ "'")) ++ "]"

/-- The command list of `_run_playbook` (ansible_lambda.py lines 69–75). -/
def ansiblePlaybookCmd (ansibleDir : String) (extra : List (String × PyVal)) :
    List String :=
  ["ansible-playbook", "-i", ansibleDir ++ "/hosts", "main.yml",
   "--ssh-common-args",
   "-o StrictHostKeyChecking=no -o UserKnownHostsFile=/dev/null -o IdentitiesOnly=yes",
   "-vv"] ++ ansibleExtraArgs extra

/-- `_run_playbook` (ansible_lambda.py lines 58–84): runs the subprocess
with `timeout=900` and NO exception handling of its own — `TimeoutExpired`
and launch errors propagate to the caller; on completion the stdout/stderr
tails are truncated to the last 20000 characters. -/
def runPlaybook (ansibleDir : String) (extra : List (String × PyVal))
    (outcome : ProcOutcome) : Except PyExn RunResult :=
  match outcome with
  | .completed rc out err =>
    .ok { returncode := rc, stdout := pySliceLast 20000 out,
          stderr := pySliceLast 20000 err, success := rc == 0 }
  | .timedOut =>
    .error (.timeoutExpired (pyListRepr (ansiblePlaybookCmd ansibleDir extra)))
  | .launchError m => .error (.oserror m)

/-- `execute_ansible_playbook` (deployment_lambda.py lines 102–166): catches
`subprocess.TimeoutExpired` and any other exception, synthesizing a failure
result with exit code −1 and the error text as stderr; it never raises and
does not truncate the captured output. -/
def executeAnsiblePlaybook (outcome : ProcOutcome) : RunResult :=
  match outcome with
  | .completed rc out err =>
    { returncode := rc, stdout := out, stderr := err, success := rc == 0 }
  | .timedOut =>
    { returncode := -1, stdout := "",
      stderr := "Execution timed out after 15 minutes", success := false }
  | .launchError m =>
    { returncode := -1, stdout := "", stderr := m, success := false }

/-! ## HTTP-style responses and run outcomes -/

/-- The dict a handler returns: `statusCode` plus the dict passed to
`json.dumps` as the body. -/
structure Response where
  statusCode : Nat
  body : List (String × PyVal)

/-- Look up a body field of a response. -/
def bodyGet (r : Response) (k : String) : Option PyVal :=
  dictGet r.body k

/-! ## ansible_lambda.py `lambda_handler` -/

/-- External effects for one run of ansible_lambda's handler:
the Secrets Manager store (`Option.none` = `ClientError` raised by
`get_secret_value`), how the bundle is present in the package, the
subprocess outcome, `os.environ`, and the random suffix `tempfile.mkdtemp`
would pick. -/
structure AnsibleWorld where
  secrets : String → Option SecretResp
  staging : StagingSrc
  proc : ProcOutcome
  env : List (String × String)
  tmpName : String

/-- `os.environ.get(k)` / `os.getenv(k)`. -/
def getenvOpt (env : List (String × String)) (k : String) : Option String :=
  (env.find? (fun kv => kv.1 == k)).map (fun kv => kv.2)

/-- `os.getenv(k, dflt)`. -/
def getenvD (env : List (String × String)) (k dflt : String) : String :=
  (getenvOpt env k).getD dflt

/-- A Python value that is a string or `None` (`os.environ.get` result). -/
def optStrToPy : Option String → PyVal
  | some s => .str s
  | Option.none => .none

/-- Mutable facts tracked across one handler run. -/
structure AnsibleSt where
  secretCalls : Nat
  workspaceCreated : Bool
  workspaceExists : Bool
  keyWrites : List String
  keyFilesExisting : List String
  procInvoked : Bool

def ansibleInitSt : AnsibleSt :=
  { secretCalls := 0, workspaceCreated := false, workspaceExists := false,
    keyWrites := [], keyFilesExisting := [], procInvoked := false }

/-- What the handler run produced, together with the state of the world
after it returned. -/
structure AnsibleOutcome where
  response : Response
  secretCalls : Nat
  workspaceCreated : Bool
  workspaceExists : Bool
  keyWrites : List String
  keyFilesExisting : List String
  procInvoked : Bool

/-- ansible_lambda.py line 88:
`body = json.loads(event.get("body", "{}")) if isinstance(event, dict) and "body" in event else event`. -/
def ansibleParseBody (event : PyVal) : Except PyExn PyVal :=
  match event with
  | .dict kvs =>
    match dictGet kvs "body" with
    | some b => jsonLoads b
    | Option.none => .ok (.dict kvs)
  | ev => .ok ev

/-- The work directory `tempfile.mkdtemp(prefix="ansible_exec_")` creates. -/
def ansibleWorkDir (w : AnsibleWorld) : String :=
  "/tmp/ansible_exec_" ++ w.tmpName

/-- `vm_secret_id = f"demoapp/vm/{site}"` (site already lower-cased). -/
def ansibleVmSecretId (site : String) : String := "demoapp/vm/" ++ site

/-- The inner `try:` block of the handler (lines 111–150): staging, key
materialisation, inventory, playbook run and response construction; the
caller wraps it with the `finally: shutil.rmtree(work_dir,
ignore_errors=True)`. -/
def ansibleInnerTry (w : AnsibleWorld) (st : AnsibleSt) (workDir : String)
    (service_name jar_timestamp : PyVal) (site : String)
    (app_user datasource_url db_username db_password vm_host _vm_user : PyVal) :
    Except PyExn Response × AnsibleSt :=
  match copyEmbeddedAnsible w.staging with
  | .error e => (.error e, st)
  | .ok () =>
  let ansibleDir := workDir ++ "/ansible"
  let st := { st with secretCalls := st.secretCalls + 1 }
  match w.secrets ansibleSshKeySecretId with
  | Option.none =>
    (.error (.clientError "Secrets Manager can't find the specified secret"),
     st)
  | some keyResp =>
  match writeSshKeyMaterial keyResp with
  | .error e => (.error e, st)
  | .ok _material =>
  let keyPath := ansibleSshKeyPath workDir
  let st := { st with keyWrites := st.keyWrites ++ [keyPath],
                      keyFilesExisting := st.keyFilesExisting ++ [keyPath] }
  let extra_vars : List (String × PyVal) := [
    ("service_name", service_name),
    ("jar_timestamp", jar_timestamp),
    ("aws_s3_bucket_repository",
      optStrToPy (getenvOpt w.env "AWS_S3_BUCKET_REPOSITORY")),
    ("aws_access_key_id", .str (getenvD w.env "AWS_ACCESS_KEY_ID" "")),
    ("aws_secret_access_key",
      .str (getenvD w.env "AWS_SECRET_ACCESS_KEY" "")),
    ("aws_default_region",
      .str (getenvD w.env "AWS_DEFAULT_REGION" "us-east-1")),
    ("site", .str site),
    ("app_user", app_user),
    ("datasource_url", datasource_url),
    ("db_username", db_username),
    ("db_password", db_password)]
  let st := { st with procInvoked := true }
  match runPlaybook ansibleDir extra_vars w.proc with
  | .error e => (.error e, st)
  | .ok result =>
  if result.success then
    (.ok ⟨200, [("message", .str "Deployment succeeded"),
                ("service_name", service_name),
                ("timestamp", jar_timestamp),
                ("site", .str site),
                ("target_vm", vm_host),
                ("ansible_stdout_tail",
                  .str (pySliceLast 2000 result.stdout))]⟩, st)
  else
    (.ok ⟨500, [("error", .str "Deployment failed"),
                ("stderr_tail", .str (pySliceLast 4000 result.stderr)),
                ("stdout_tail", .str (pySliceLast 4000 result.stdout))]⟩, st)

/-- Workspace creation (`tempfile.mkdtemp`) plus the inner try/finally of
the handler (lines 110–152): the `finally:` removes the workspace tree
(`shutil.rmtree(work_dir, ignore_errors=True)`), deleting every file under
it, on every exit path of the inner block. -/
def ansibleWithWorkspace (w : AnsibleWorld) (st : AnsibleSt)
    (service_name jar_timestamp : PyVal) (site : String)
    (app_user datasource_url db_username db_password vm_host vm_user :
      PyVal) : Except PyExn Response × AnsibleSt :=
  let workDir := ansibleWorkDir w
  let st := { st with workspaceCreated := true, workspaceExists := true }
  let inner := ansibleInnerTry w st workDir service_name jar_timestamp site
    app_user datasource_url db_username db_password vm_host vm_user
  let st' := inner.2
  let st' := { st' with
    workspaceExists := false,
    keyFilesExisting := st'.keyFilesExisting.filter
      (fun p => !(strStarts p (workDir ++ "/")) && p != workDir) }
  (inner.1, st')

/-- The post-validation part of the handler (lines 100–152): resolve the vm
secret, read its fields, then run the workspace-scoped block. -/
def ansibleResolveSecrets (w : AnsibleWorld) (st : AnsibleSt)
    (service_name jar_timestamp : PyVal) (site : String) (app_user : PyVal) :
    Except PyExn Response × AnsibleSt :=
  let st := { st with secretCalls := st.secretCalls + 1 }
  match w.secrets (ansibleVmSecretId site) with
  | Option.none =>
    (.error (.clientError "Secrets Manager can't find the specified secret"),
     st)
  | some resp =>
  match getJsonSecret resp with
  | .error e => (.error e, st)
  | .ok vm_data =>
  match pySubscript vm_data "VM_HOSTNAME" with
  | .error e => (.error e, st)
  | .ok vm_host =>
  match pySubscript vm_data "VM_USERNAME" with
  | .error e => (.error e, st)
  | .ok vm_user =>
  match pyGetD vm_data "DATASOURCE_URL" (.str "") with
  | .error e => (.error e, st)
  | .ok datasource_url =>
  match pyGetD vm_data "DB_USERNAME" (.str "") with
  | .error e => (.error e, st)
  | .ok db_username =>
  match pyGetD vm_data "DB_PASSWORD" (.str "") with
  | .error e => (.error e, st)
  | .ok db_password =>
  ansibleWithWorkspace w st service_name jar_timestamp site app_user
    datasource_url db_username db_password vm_host vm_user

/-- The outer `try:` body of the handler (lines 87–152): request parsing,
validation, then secret resolution and the workspace-scoped run. -/
def ansibleTryBody (event : PyVal) (w : AnsibleWorld) (st : AnsibleSt) :
    Except PyExn Response × AnsibleSt :=
  match ansibleParseBody event with
  | .error e => (.error e, st)
  | .ok body =>
  match pyGet body "service_name" with
  | .error e => (.error e, st)
  | .ok service_name =>
  match pyGet body "jar_timestamp" with
  | .error e => (.error e, st)
  | .ok jar_timestamp =>
  match pyGetD body "site" (.str "sit1") with
  | .error e => (.error e, st)
  | .ok siteV =>
  match pyLowerMethod siteV with
  | .error e => (.error e, st)
  | .ok site =>
  match pyGetD body "app_user" (.str "appadm") with
  | .error e => (.error e, st)
  | .ok app_user =>
  if !pyTruthy service_name || !pyTruthy jar_timestamp then
    (.ok ⟨400, [("error",
      .str "service_name and jar_timestamp required")]⟩, st)
  else
  ansibleResolveSecrets w st service_name jar_timestamp site app_user

/-- `lambda_handler` (ansible_lambda.py lines 86–155): the whole body runs
under `try: ... except Exception as e:` which converts any raised exception
into a `statusCode 500` response carrying `str(e)`. -/
def ansibleLambdaHandler (event : PyVal) (w : AnsibleWorld) : AnsibleOutcome :=
  match ansibleTryBody event w ansibleInitSt with
  | (.ok resp, st) =>
    { response := resp, secretCalls := st.secretCalls,
      workspaceCreated := st.workspaceCreated,
      workspaceExists := st.workspaceExists,
      keyWrites := st.keyWrites, keyFilesExisting := st.keyFilesExisting,
      procInvoked := st.procInvoked }
  | (.error e, st) =>
    { response := ⟨500, [("error", .str (pyStrExn e))]⟩,
      secretCalls := st.secretCalls,
      workspaceCreated := st.workspaceCreated,
      workspaceExists := st.workspaceExists,
      keyWrites := st.keyWrites, keyFilesExisting := st.keyFilesExisting,
      procInvoked := st.procInvoked }

/-! ## deployment_lambda.py `lambda_handler` -/

/-- External effects for one run of deployment_lambda's handler: the SSM
Parameter Store (`Option.none` = the boto3 call raises), the S3 bundle
download (`some entries` = the downloaded zip's entry names,
`Option.none` = the download raises), the subprocess outcome, `os.environ`,
the `tempfile.mkdtemp` suffix and the HOME directory
(`os.path.expanduser('~')`). -/
structure DeployWorld where
  params : String → Option String
  s3Zip : Option (List String)
  proc : ProcOutcome
  env : List (String × String)
  tmpName : String
  home : String

/-- Mutable facts tracked across one deployment handler run. -/
structure DeploySt where
  ssmCalls : Nat
  workspaceCreated : Bool
  workspaceExists : Bool
  keyWrites : List String
  keyFilesExisting : List String
  procInvoked : Bool

def deployInitSt : DeploySt :=
  { ssmCalls := 0, workspaceCreated := false, workspaceExists := false,
    keyWrites := [], keyFilesExisting := [], procInvoked := false }

/-- What the deployment handler run produced. -/
structure DeployOutcome where
  response : Response
  ssmCalls : Nat
  workspaceCreated : Bool
  workspaceExists : Bool
  keyWrites : List String
  keyFilesExisting : List String
  procInvoked : Bool

/-- The work directory `tempfile.mkdtemp(prefix='ansible_deploy_')`
creates (`setup_work_directory`). -/
def deployWorkDir (w : DeployWorld) : String :=
  "/tmp/ansible_deploy_" ++ w.tmpName

/-- deployment_lambda.py line 204:
`body = json.loads(event.get('body', '{}')) if isinstance(event.get('body'), str) else event`
— `event.get` itself raises `AttributeError` on a non-dict event. -/
def deployParseBody (event : PyVal) : Except PyExn PyVal :=
  match event with
  | .dict kvs =>
    match dictGet kvs "body" with
    | some (.str s) => jsonLoads (.str s)
    | _ => .ok (.dict kvs)
  | _ => .error (.attributeError "object has no attribute get")

/-- The resolved inventory record of `get_inventory_mapping`. -/
structure InventoryMapping where
  hostname : String
  username : String
  sshKey : String
  datasourceUrl : String
  dbUsername : String
  dbPassword : String

/-- `get_secret_parameter`: one `ssm.get_parameter` call (counted); a
missing parameter raises (logged and re-raised). -/
def deployGetParam (w : DeployWorld) (calls : Nat) (name : String) :
    Except PyExn String × Nat :=
  match w.params name with
  | some v => (.ok v, calls + 1)
  | Option.none => (.error (.clientError "ParameterNotFound"), calls + 1)

/-- `get_inventory_mapping` (deployment_lambda.py lines 168–191): six
sequential parameter fetches under `/demoapp/vm/{site.lower()}/...` plus the
constant `/demoapp/vm/ssh-key`; any failure is converted into
`ValueError(f"No inventory mapping found for site: {site}")`. -/
def getInventoryMapping (w : DeployWorld) (calls : Nat) (site : String) :
    Except PyExn InventoryMapping × Nat :=
  let fail : Nat → Except PyExn InventoryMapping × Nat :=
    fun n =>
      (.error (.valueError ("No inventory mapping found for site: " ++ site)),
       n)
  match deployGetParam w calls (deploymentParamId site "hostname") with
  | (.error _, n) => fail n
  | (.ok hostname, n) =>
  match deployGetParam w n (deploymentParamId site "username") with
  | (.error _, n) => fail n
  | (.ok username, n) =>
  match deployGetParam w n "/demoapp/vm/ssh-key" with
  | (.error _, n) => fail n
  | (.ok sshKey, n) =>
  match deployGetParam w n (deploymentParamId site "datasource_url") with
  | (.error _, n) => fail n
  | (.ok datasourceUrl, n) =>
  match deployGetParam w n (deploymentParamId site "db_username") with
  | (.error _, n) => fail n
  | (.ok dbUsername, n) =>
  match deployGetParam w n (deploymentParamId site "db_password") with
  | (.error _, n) => fail n
  | (.ok dbPassword, n) =>
    (.ok { hostname, username, sshKey, datasourceUrl, dbUsername,
           dbPassword }, n)

/-- `download_ansible_package` (deployment_lambda.py lines 43–61): download
the zip into the workspace and `extractall` it into `work_dir/ansible`; each
member is extracted at its `extractMemberComponents` path under that
directory, and no member is ever rejected.  A download failure raises. -/
def downloadAnsiblePackage (w : DeployWorld) (workDir : String) :
    Except PyExn String :=
  match w.s3Zip with
  | Option.none => .error (.clientError "S3 download failed")
  | some _entries => .ok (workDir ++ "/ansible")

/-- The command list of `execute_ansible_playbook` (deployment_lambda.py
lines 122–128): every extra-variable entry is rendered, `None` included. -/
def deploymentPlaybookCmd (inventoryPath : String)
    (extra : List (String × PyVal)) : List String :=
  ["ansible-playbook", "-i", inventoryPath, "main.yml",
   "--ssh-common-args",
   "-o StrictHostKeyChecking=no -o UserKnownHostsFile=/dev/null -o IdentitiesOnly=yes",
   "-vvv"] ++ deploymentExtraArgs extra

/-- The post-validation pipeline of deployment_lambda's handler (lines
226–287): workspace creation, SSM inventory resolution, ssh-key
materialisation under HOME, bundle download, inventory file, playbook run
and response construction. -/
def deployRunPipeline (w : DeployWorld) (st : DeploySt)
    (service_name jar_timestamp : PyVal) (site : String)
    (app_user artifacts_s3_bucket : PyVal) :
    Except PyExn Response × DeploySt :=
  -- deployer = AnsibleDeploymentLambda(); deployer.setup_work_directory()
  let workDir := deployWorkDir w
  let st := { st with workspaceCreated := true, workspaceExists := true }
  match getInventoryMapping w st.ssmCalls site with
  | (.error e, n) => (.error e, { st with ssmCalls := n })
  | (.ok inventory, n) =>
  let st := { st with ssmCalls := n }
  -- setup_ssh_key writes under HOME, outside the workspace
  let keyPath := setupSshKeyPath w.home
  let st := { st with keyWrites := st.keyWrites ++ [keyPath],
                      keyFilesExisting := st.keyFilesExisting ++ [keyPath] }
  match downloadAnsiblePackage w workDir with
  | .error e => (.error e, st)
  | .ok ansibleDir =>
  -- create_inventory_file writes work_dir/ansible/hosts
  let inventoryPath := ansibleDir ++ "/hosts"
  let extra_vars : List (String × PyVal) := [
    ("service_name", service_name),
    ("jar_timestamp", jar_timestamp),
    ("aws_s3_bucket_repository", artifacts_s3_bucket),
    ("aws_access_key_id", optStrToPy (getenvOpt w.env "AWS_ACCESS_KEY_ID")),
    ("aws_secret_access_key",
      optStrToPy (getenvOpt w.env "AWS_SECRET_ACCESS_KEY")),
    ("aws_default_region", optStrToPy (getenvOpt w.env "AWS_DEFAULT_REGION")),
    ("site", .str site),
    ("app_user", app_user),
    ("datasource_url", .str inventory.datasourceUrl),
    ("db_username", .str inventory.dbUsername),
    ("db_password", .str inventory.dbPassword)]
  let _cmd := deploymentPlaybookCmd inventoryPath extra_vars
  let st := { st with procInvoked := true }
  let result := executeAnsiblePlaybook w.proc
  if result.success then
    (.ok ⟨200, [("message", .str "Deployment completed successfully"),
                ("service_name", service_name),
                ("timestamp", jar_timestamp),
                ("site", .str site),
                ("target_vm", .str inventory.hostname),
                ("ansible_output",
                  .str (pySliceLast 2000 result.stdout))]⟩, st)
  else
    (.ok ⟨500, [("error", .str "Deployment failed"),
                ("ansible_stderr", .str (pySliceLast 2000 result.stderr)),
                ("ansible_stdout", .str (pySliceLast 2000 result.stdout))]⟩,
     st)

/-- The `try:` body of deployment_lambda's handler (lines 202–287). -/
def deployTryBody (event : PyVal) (w : DeployWorld) (st : DeploySt) :
    Except PyExn Response × DeploySt :=
  match deployParseBody event with
  | .error e => (.error e, st)
  | .ok body =>
  match pyGet body "service_name" with
  | .error e => (.error e, st)
  | .ok service_name =>
  match pyGet body "jar_timestamp" with
  | .error e => (.error e, st)
  | .ok jar_timestamp =>
  match pyGetD body "site" (.str "sit1") with
  | .error e => (.error e, st)
  | .ok siteV =>
  match pyUpperMethod siteV with
  | .error e => (.error e, st)
  | .ok site =>
  match pyGetD body "app_user" (.str "appuser") with
  | .error e => (.error e, st)
  | .ok app_user =>
  match pyGetD body "ansible_s3_bucket"
      (optStrToPy (getenvOpt w.env "ANSIBLE_S3_BUCKET")) with
  | .error e => (.error e, st)
  | .ok ansible_s3_bucket =>
  match pyGetD body "ansible_s3_key" (.str "ansible/ansible-playbooks.zip") with
  | .error e => (.error e, st)
  | .ok _ansible_s3_key =>
  match pyGetD body "artifacts_s3_bucket"
      (optStrToPy (getenvOpt w.env "AWS_S3_BUCKET_REPOSITORY")) with
  | .error e => (.error e, st)
  | .ok artifacts_s3_bucket =>
  if !(pyTruthy service_name && pyTruthy jar_timestamp &&
       pyTruthy artifacts_s3_bucket && pyTruthy ansible_s3_bucket) then
    (.ok ⟨400, [("error",
      .str "Missing required parameters: service_name, jar_timestamp, artifacts_s3_bucket, ansible_s3_bucket")]⟩,
     st)
  else
  deployRunPipeline w st service_name jar_timestamp site app_user
    artifacts_s3_bucket

/-- `cleanup` (deployment_lambda.py lines 193–197), run from the handler's
`finally:` when a deployer was constructed: remove the work directory when
it was created and still exists.  The key file under `~/.ssh` is untouched. -/
def deployCleanup (workDir : String) (st : DeploySt) : DeploySt :=
  if st.workspaceCreated && st.workspaceExists then
    { st with
      workspaceExists := false,
      keyFilesExisting := st.keyFilesExisting.filter
        (fun p => !(strStarts p (workDir ++ "/")) && p != workDir) }
  else st

/-- `lambda_handler` (deployment_lambda.py lines 199–300): the `try:` body,
an `except Exception` producing a 500 response, and a `finally:` running
`cleanup` whenever the deployer object was constructed. -/
def deploymentLambdaHandler (event : PyVal) (w : DeployWorld) :
    DeployOutcome :=
  let run := deployTryBody event w deployInitSt
  let st := deployCleanup (deployWorkDir w) run.2
  match run.1 with
  | .ok resp =>
    { response := resp, ssmCalls := st.ssmCalls,
      workspaceCreated := st.workspaceCreated,
      workspaceExists := st.workspaceExists,
      keyWrites := st.keyWrites, keyFilesExisting := st.keyFilesExisting,
      procInvoked := st.procInvoked }
  | .error e =>
    { response := ⟨500, [("error", .str (pyStrExn e)),
                         ("message", .str "Lambda deployment failed")]⟩,
      ssmCalls := st.ssmCalls,
      workspaceCreated := st.workspaceCreated,
      workspaceExists := st.workspaceExists,
      keyWrites := st.keyWrites, keyFilesExisting := st.keyFilesExisting,
      procInvoked := st.procInvoked }

/-! # Claim theorems -/

/-! ## C4 — extra-variable serialisation -/

/-- Python's `v is None` test. -/
def pyIsNone : PyVal → Bool
  | .none => true
  | _ => false

/-- **C4, counterexample**: in deployment_lambda's executor, a mapping with
zero non-null entries and one null entry renders one `-e` flag pair whose
argument serialises the null value as the literal string `None` — the
claimed invariant fails on this pipeline variant (the handler feeds it
`os.environ.get('AWS_ACCESS_KEY_ID')`, which can be `None`). -/
theorem deployment_serializes_none :
    deploymentExtraArgs [("aws_access_key_id", PyVal.none)] =
      ["-e", "aws_access_key_id=None"] := rfl

/-- **C4, amended**: ansible_lambda's `_run_playbook` renders exactly one
`-e` pair per non-null entry and every non-flag argument originates from a
non-null entry; deployment_lambda's `execute_ansible_playbook` instead
renders one pair per entry, null entries included (which it serialises as
`"None"`, per the counterexample). -/
theorem extra_args_rendering :
    (∀ extra : List (String × PyVal),
      (ansibleExtraArgs extra).length =
        2 * (extra.filter (fun kv => !pyIsNone kv.2)).length) ∧
    (∀ (extra : List (String × PyVal)) (arg : String),
      arg ∈ ansibleExtraArgs extra →
      arg = "-e" ∨ ∃ kv ∈ extra, pyIsNone kv.2 = false ∧
        arg = kv.1 ++ "=" ++ pyStrOf kv.2) ∧
    (∀ extra : List (String × PyVal),
      (deploymentExtraArgs extra).length = 2 * extra.length) := by
  refine ⟨?_, ?_, ?_⟩
  · intro extra
    induction extra with
    | nil => rfl
    | cons kv rest ih =>
      obtain ⟨k, v⟩ := kv
      cases v <;>
        simp [ansibleExtraArgs, pyIsNone, List.filter_cons, ih] <;> omega
  · intro extra arg hmem
    induction extra with
    | nil => simp [ansibleExtraArgs] at hmem
    | cons kv rest ih =>
      obtain ⟨k, v⟩ := kv
      cases v with
      | none =>
        rcases ih (by simpa [ansibleExtraArgs] using hmem) with h | ⟨kv', hkv', hn, he⟩
        · exact Or.inl h
        · exact Or.inr ⟨kv', List.mem_cons_of_mem _ hkv', hn, he⟩
      | bool b =>
        simp only [ansibleExtraArgs, List.mem_cons] at hmem
        rcases hmem with h | h | h
        · exact Or.inl h
        · exact Or.inr ⟨(k, .bool b), List.mem_cons_self _ _, rfl, h⟩
        · rcases ih h with h' | ⟨kv', hkv', hn, he⟩
          · exact Or.inl h'
          · exact Or.inr ⟨kv', List.mem_cons_of_mem _ hkv', hn, he⟩
      | int n =>
        simp only [ansibleExtraArgs, List.mem_cons] at hmem
        rcases hmem with h | h | h
        · exact Or.inl h
        · exact Or.inr ⟨(k, .int n), List.mem_cons_self _ _, rfl, h⟩
        · rcases ih h with h' | ⟨kv', hkv', hn, he⟩
          · exact Or.inl h'
          · exact Or.inr ⟨kv', List.mem_cons_of_mem _ hkv', hn, he⟩
      | str s =>
        simp only [ansibleExtraArgs, List.mem_cons] at hmem
        rcases hmem with h | h | h
        · exact Or.inl h
        · exact Or.inr ⟨(k, .str s), List.mem_cons_self _ _, rfl, h⟩
        · rcases ih h with h' | ⟨kv', hkv', hn, he⟩
          · exact Or.inl h'
          · exact Or.inr ⟨kv', List.mem_cons_of_mem _ hkv', hn, he⟩
      | list xs =>
        simp only [ansibleExtraArgs, List.mem_cons] at hmem
        rcases hmem with h | h | h
        · exact Or.inl h
        · exact Or.inr ⟨(k, .list xs), List.mem_cons_self _ _, rfl, h⟩
        · rcases ih h with h' | ⟨kv', hkv', hn, he⟩
          · exact Or.inl h'
          · exact Or.inr ⟨kv', List.mem_cons_of_mem _ hkv', hn, he⟩
      | dict kvs =>
        simp only [ansibleExtraArgs, List.mem_cons] at hmem
        rcases hmem with h | h | h
        · exact Or.inl h
        · exact Or.inr ⟨(k, .dict kvs), List.mem_cons_self _ _, rfl, h⟩
        · rcases ih h with h' | ⟨kv', hkv', hn, he⟩
          · exact Or.inl h'
          · exact Or.inr ⟨kv', List.mem_cons_of_mem _ hkv', hn, he⟩
  · intro extra
    induction extra with
    | nil => rfl
    | cons kv rest ih =>
      obtain ⟨k, v⟩ := kv
      simp [deploymentExtraArgs, ih]
      omega

/-- **C4, witness**: the amended rendering facts evaluated at a concrete
mapping with one null and one non-null entry. -/
theorem extra_args_rendering_witness :
    (ansibleExtraArgs [("a", PyVal.none), ("b", PyVal.str "v")]).length =
      2 * (([("a", PyVal.none), ("b", PyVal.str "v")]).filter
        (fun kv => !pyIsNone kv.2)).length ∧
    ("b=v" = "-e" ∨ ∃ kv ∈ [("a", PyVal.none), ("b", PyVal.str "v")],
      pyIsNone kv.2 = false ∧ "b=v" = kv.1 ++ "=" ++ pyStrOf kv.2) ∧
    (deploymentExtraArgs [("a", PyVal.none), ("b", PyVal.str "v")]).length =
      2 * ([("a", PyVal.none), ("b", PyVal.str "v")] :
        List (String × PyVal)).length :=
  ⟨extra_args_rendering.1 _,
   extra_args_rendering.2.1 [("a", PyVal.none), ("b", PyVal.str "v")] "b=v"
     (by simp [ansibleExtraArgs, pyStrOf, pyRepr]),
   extra_args_rendering.2.2 _⟩

/-! ## C5 — archive staging and zip-slip -/

/-- **C5, counterexample**: an archive containing the traversal entry
`../evil` is NOT rejected — no `BundleUnsafePath` (or any other) error is
raised by either staging path: `_copy_embedded_ansible` stages the bundle
successfully, and `extractall`'s sanitisation extracts the member at the
stripped path `evil` inside the target instead of rejecting the archive. -/
theorem zipslip_not_rejected :
    copyEmbeddedAnsible (.bundleZip ["ansible/main.yml", "../evil"]) =
      .ok () ∧
    extractMemberComponents "../evil" = [['e', 'v', 'i', 'l']] :=
  ⟨rfl, rfl⟩

/-- **C5, amended**: no staging path rejects a zip-slip archive (there is no
`BundleUnsafePath` error in the code); instead the standard library
neutralises traversal entries, so no file is extracted outside the target
directory: every entry `shutil.unpack_archive` keeps has a relative name
with no `..` component, and every member `zipfile.extractall` extracts is
placed at components none of which is `..` or empty. -/
theorem extraction_confined_to_target :
    (∀ (entries : List String) (name : String), name ∈ unpackZipfile entries →
      strStarts name "/" = false ∧ ['.', '.'] ∉ splitChar '/' name.data) ∧
    (∀ name : String, ['.', '.'] ∉ extractMemberComponents name ∧
      [] ∉ extractMemberComponents name) := by
  constructor
  · intro entries name hmem
    have hk : unpackZipfileKeeps name = true :=
      (List.mem_filter.mp hmem).2
    unfold unpackZipfileKeeps at hk
    rw [Bool.and_eq_true] at hk
    obtain ⟨h1, h2⟩ := hk
    refine ⟨by simpa using h1, ?_⟩
    intro hcc
    obtain ⟨s, t, hst⟩ := mem_splitChar_isRun hcc
    have hsub : listSub ['.', '.'] name.data = true := by
      rw [← hst]
      exact listSub_append _ s t
    rw [hsub] at h2
    simp at h2
  · intro name
    constructor
    · intro h
      have := (List.mem_filter.mp h).2
      simp at this
    · intro h
      have := (List.mem_filter.mp h).2
      simp at this

/-- **C5, witness**: the confinement facts evaluated at the concrete archive
of the counterexample. -/
theorem extraction_confined_to_target_witness :
    (strStarts "ansible/main.yml" "/" = false ∧
      ['.', '.'] ∉ splitChar '/' "ansible/main.yml".data) ∧
    (['.', '.'] ∉ extractMemberComponents "../evil" ∧
      [] ∉ extractMemberComponents "../evil") :=
  ⟨extraction_confined_to_target.1 ["ansible/main.yml", "../evil"]
      "ansible/main.yml" (by decide),
   extraction_confined_to_target.2 "../evil"⟩

/-! ## C7 — base64 decoding policy for secret payloads -/

/-- **C7, counterexample**: `setup_ssh_key` (deployment_lambda.py) receives
its payload from SSM as plain text, yet base64-decodes it whenever the text
happens to decode: the plain-text payload `"aGVsbG8="` is rewritten to
`"hello"` instead of being used as-is. -/
theorem setup_ssh_key_decodes_plaintext :
    setupSshKeyContent "aGVsbG8=" = "hello" ∧ "aGVsbG8=" ≠ "hello" :=
  ⟨rfl, by decide⟩

/-- **C7, amended**: the Secrets-Manager variant decodes base64 only when
the payload is binary-typed — `_get_json_secret` and `_write_ssh_key` use a
present (non-empty, for the latter) `SecretString` as-is without any base64
decoding; the Parameter-Store variant's `setup_ssh_key` instead decodes any
payload that successfully parses as base64-encoded UTF-8, even when it is
already plain text (per the counterexample). -/
theorem base64_decode_policy :
    (∀ (resp : SecretResp) (s : String), resp.secretString = some s →
      getJsonSecret resp = jsonLoads (.str s)) ∧
    (∀ (resp : SecretResp) (s : String), resp.secretString = some s →
      s ≠ "" → writeSshKeyMaterial resp = .ok s) ∧
    (∀ (s t : String) (bytes : List Nat), b64DecodeStr s = .ok bytes →
      utf8Decode bytes = .ok t → setupSshKeyContent s = t) := by
  refine ⟨?_, ?_, ?_⟩
  · intro resp s h
    unfold getJsonSecret
    rw [h]
  · intro resp s h hne
    unfold writeSshKeyMaterial
    rw [h]
    simp [hne]
  · intro s t bytes hb ht
    unfold setupSshKeyContent
    rw [hb]
    simp only []
    rw [ht]

/-- **C7, witness**: the decode policy evaluated at a concrete plain-text
secret response and at the concrete base64 payload of the counterexample. -/
theorem base64_decode_policy_witness :
    getJsonSecret ⟨some "PLAINKEY", some [1, 2, 3]⟩ =
      jsonLoads (.str "PLAINKEY") ∧
    writeSshKeyMaterial ⟨some "PLAINKEY", some [1, 2, 3]⟩ = .ok "PLAINKEY" ∧
    setupSshKeyContent "aGVsbG8=" = "hello" :=
  ⟨base64_decode_policy.1 ⟨some "PLAINKEY", some [1, 2, 3]⟩ "PLAINKEY" rfl,
   base64_decode_policy.2.1 ⟨some "PLAINKEY", some [1, 2, 3]⟩ "PLAINKEY" rfl
     (by decide),
   base64_decode_policy.2.2 "aGVsbG8=" "hello" [104, 101, 108, 108, 111]
     rfl rfl⟩

/-! ## C10 — case normalisation of the site identifier -/

/-- **C10**: two requests whose `site` fields agree up to letter case query
the secret store under identical identifiers in both pipeline variants:
ansible_lambda lower-cases the site once before building
`demoapp/vm/{site}`, and deployment_lambda upper-cases it once and then
lower-cases it inside every `/demoapp/vm/{site.lower()}/...` parameter
name. -/
theorem site_case_normalization :
    ∀ s1 s2 : String, pyLower s1 = pyLower s2 →
      ansibleVmSecretIdOfRaw s1 = ansibleVmSecretIdOfRaw s2 ∧
      ∀ leaf : String, deploymentParamId (deploymentSiteOfRaw s1) leaf =
        deploymentParamId (deploymentSiteOfRaw s2) leaf := by
  intro s1 s2 h
  constructor
  · unfold ansibleVmSecretIdOfRaw
    rw [h]
  · intro leaf
    unfold deploymentParamId deploymentSiteOfRaw
    rw [pyLower_pyUpper, pyLower_pyUpper, h]

/-- **C10, witness**: the identifier equalities evaluated at the concrete
case-variant pair `"SIT1"` / `"sit1"`. -/
theorem site_case_normalization_witness :
    ansibleVmSecretIdOfRaw "SIT1" = ansibleVmSecretIdOfRaw "sit1" ∧
    deploymentParamId (deploymentSiteOfRaw "SIT1") "hostname" =
      deploymentParamId (deploymentSiteOfRaw "sit1") "hostname" :=
  ⟨(site_case_normalization "SIT1" "sit1" (by decide)).1,
   (site_case_normalization "SIT1" "sit1" (by decide)).2 "hostname"⟩

/-! ## C1 — timeout handling (counterexample half) -/

/-- **C1, counterexample**: `_run_playbook` (ansible_lambda.py) contains no
exception handling, so when the subprocess exceeds the 900-second timeout
the `TimeoutExpired` exception escapes the executor instead of being
synthesized into an `ExecutionResult` — falsifying the claim for this
pipeline variant at a concrete timed-out run. -/
theorem runPlaybook_timeout_escapes_executor :
    runPlaybook "/tmp/ansible_exec_x/ansible" [] .timedOut =
      .error (.timeoutExpired (pyListRepr
        (ansiblePlaybookCmd "/tmp/ansible_exec_x/ansible" []))) := rfl

/-! ## Handler-level lemmas -/

/-- The response, when the enclosing `try:` body returned one, carries a
status code from the given set. -/
def statusIn (r : Except PyExn Response) (codes : List Nat) : Prop :=
  match r with
  | .ok resp => resp.statusCode ∈ codes
  | .error _ => True

theorem strAppend_assoc (a b c : String) : (a ++ b) ++ c = a ++ (b ++ c) :=
  congrArg String.mk (List.append_assoc a.data b.data c.data)

/-- The ssh-key path is inside the workspace: it extends `workDir ++ "/"`. -/
theorem ansibleSshKeyPath_in_workspace (workDir : String) :
    strStarts (ansibleSshKeyPath workDir) (workDir ++ "/") = true := by
  have h1 : ansibleSshKeyPath workDir = (workDir ++ "/") ++ "id_rsa" := by
    unfold ansibleSshKeyPath
    rw [strAppend_assoc]
    rfl
  rw [h1]
  exact strStarts_append _ _

theorem ansibleInnerTry_status (w : AnsibleWorld) (st : AnsibleSt)
    (workDir : String) (sn jt : PyVal) (site : String)
    (au du dbu dbp vh vu : PyVal) :
    statusIn (ansibleInnerTry w st workDir sn jt site au du dbu dbp vh vu).1
      [200, 500] := by
  unfold ansibleInnerTry
  cases hc : copyEmbeddedAnsible w.staging with
  | error e => simp [statusIn]
  | ok u =>
    dsimp only
    cases hk : w.secrets ansibleSshKeySecretId with
    | none => simp [statusIn]
    | some keyResp =>
      dsimp only
      cases hm : writeSshKeyMaterial keyResp with
      | error e => simp [statusIn]
      | ok material =>
        dsimp only
        cases hp : w.proc with
        | completed rc out err =>
          simp only [runPlaybook]
          split <;> simp [statusIn]
        | timedOut => simp [statusIn, runPlaybook]
        | launchError m => simp [statusIn, runPlaybook]

theorem ansibleInnerTry_state (w : AnsibleWorld) (st : AnsibleSt)
    (workDir : String) (sn jt : PyVal) (site : String)
    (au du dbu dbp vh vu : PyVal) :
    let r := ansibleInnerTry w st workDir sn jt site au du dbu dbp vh vu
    r.2.workspaceCreated = st.workspaceCreated ∧
    r.2.workspaceExists = st.workspaceExists ∧
    (r.2.keyWrites = st.keyWrites ∨
      r.2.keyWrites = st.keyWrites ++ [ansibleSshKeyPath workDir]) ∧
    (r.2.keyFilesExisting = st.keyFilesExisting ∨
      r.2.keyFilesExisting =
        st.keyFilesExisting ++ [ansibleSshKeyPath workDir]) := by
  unfold ansibleInnerTry
  cases hc : copyEmbeddedAnsible w.staging with
  | error e => simp
  | ok u =>
    dsimp only
    cases hk : w.secrets ansibleSshKeySecretId with
    | none => simp
    | some keyResp =>
      dsimp only
      cases hm : writeSshKeyMaterial keyResp with
      | error e => simp
      | ok material =>
        dsimp only
        cases hp : w.proc with
        | completed rc out err =>
          simp only [runPlaybook]
          split <;> simp
        | timedOut => simp [runPlaybook]
        | launchError m => simp [runPlaybook]

theorem ansibleInnerTry_timeout (w : AnsibleWorld) (st : AnsibleSt)
    (workDir : String) (sn jt : PyVal) (site : String)
    (au du dbu dbp vh vu : PyVal)
    (hproc : w.proc = .timedOut) (hst : st.procInvoked = false) :
    let r := ansibleInnerTry w st workDir sn jt site au du dbu dbp vh vu
    r.2.procInvoked = false ∨
      ∃ cmd, r.1 = .error (.timeoutExpired cmd) := by
  unfold ansibleInnerTry
  cases hc : copyEmbeddedAnsible w.staging with
  | error e => simp [hst]
  | ok u =>
    dsimp only
    cases hk : w.secrets ansibleSshKeySecretId with
    | none => simp [hst]
    | some keyResp =>
      dsimp only
      cases hm : writeSshKeyMaterial keyResp with
      | error e => simp [hst]
      | ok material =>
        dsimp only
        rw [hproc]
        simp only [runPlaybook]
        exact Or.inr ⟨_, rfl⟩

theorem statusIn_widen {r : Except PyExn Response}
    (h : statusIn r [200, 500]) : statusIn r [200, 400, 500] := by
  cases r with
  | ok resp =>
    simp [statusIn] at h ⊢
    rcases h with h | h <;> simp [h]
  | error e => simp [statusIn]

theorem ansibleWithWorkspace_status (w : AnsibleWorld) (st : AnsibleSt)
    (sn jt : PyVal) (site : String) (au du dbu dbp vh vu : PyVal) :
    statusIn
      (ansibleWithWorkspace w st sn jt site au du dbu dbp vh vu).1
      [200, 500] := by
  unfold ansibleWithWorkspace
  dsimp only
  apply ansibleInnerTry_status

theorem ansibleWithWorkspace_wsExists (w : AnsibleWorld) (st : AnsibleSt)
    (sn jt : PyVal) (site : String) (au du dbu dbp vh vu : PyVal) :
    (ansibleWithWorkspace w st sn jt site au du dbu dbp vh vu).2.workspaceExists
      = false := rfl

theorem ansibleWithWorkspace_keys (w : AnsibleWorld) (st : AnsibleSt)
    (sn jt : PyVal) (site : String) (au du dbu dbp vh vu : PyVal)
    (hw : st.keyWrites = []) (hk : st.keyFilesExisting = []) :
    (∀ p ∈ (ansibleWithWorkspace w st sn jt site au du dbu dbp
        vh vu).2.keyWrites, p = ansibleSshKeyPath (ansibleWorkDir w)) ∧
    (ansibleWithWorkspace w st sn jt site au du dbu dbp
        vh vu).2.keyFilesExisting = [] := by
  have hstate := ansibleInnerTry_state w
    { st with workspaceCreated := true, workspaceExists := true }
    (ansibleWorkDir w) sn jt site au du dbu dbp vh vu
  obtain ⟨-, -, hkw, hkf⟩ := hstate
  unfold ansibleWithWorkspace
  dsimp only
  constructor
  · intro p hp
    rcases hkw with hkw | hkw <;> rw [hkw] at hp <;> simp [hw] at hp
    · exact hp
  · rcases hkf with hkf | hkf <;> rw [hkf] <;>
      simp [hk, List.filter, ansibleSshKeyPath_in_workspace]

theorem ansibleWithWorkspace_timeout (w : AnsibleWorld) (st : AnsibleSt)
    (sn jt : PyVal) (site : String) (au du dbu dbp vh vu : PyVal)
    (hproc : w.proc = .timedOut) (hpi : st.procInvoked = false) :
    (ansibleWithWorkspace w st sn jt site au du dbu dbp
        vh vu).2.procInvoked = false ∨
    ∃ cmd, (ansibleWithWorkspace w st sn jt site au du dbu dbp vh vu).1 =
      .error (.timeoutExpired cmd) := by
  have h := ansibleInnerTry_timeout w
    { st with workspaceCreated := true, workspaceExists := true }
    (ansibleWorkDir w) sn jt site au du dbu dbp vh vu hproc
    (by simpa using hpi)
  unfold ansibleWithWorkspace
  dsimp only
  rcases h with h | ⟨cmd, hcmd⟩
  · left
    exact h
  · right
    exact ⟨cmd, hcmd⟩

theorem ansibleResolveSecrets_status (w : AnsibleWorld) (st : AnsibleSt)
    (sn jt : PyVal) (site : String) (au : PyVal) :
    statusIn (ansibleResolveSecrets w st sn jt site au).1 [200, 500] := by
  unfold ansibleResolveSecrets
  dsimp only
  repeat' split
  all_goals first
    | apply ansibleWithWorkspace_status
    | simp [statusIn]

theorem ansibleResolveSecrets_wsExists (w : AnsibleWorld) (st : AnsibleSt)
    (sn jt : PyVal) (site : String) (au : PyVal)
    (hex : st.workspaceExists = false) :
    (ansibleResolveSecrets w st sn jt site au).2.workspaceExists = false := by
  unfold ansibleResolveSecrets
  dsimp only
  repeat' split
  all_goals first
    | apply ansibleWithWorkspace_wsExists
    | simp_all

theorem ansibleResolveSecrets_keys (w : AnsibleWorld) (st : AnsibleSt)
    (sn jt : PyVal) (site : String) (au : PyVal)
    (hw : st.keyWrites = []) (hk : st.keyFilesExisting = []) :
    (∀ p ∈ (ansibleResolveSecrets w st sn jt site au).2.keyWrites,
       p = ansibleSshKeyPath (ansibleWorkDir w)) ∧
    (ansibleResolveSecrets w st sn jt site au).2.keyFilesExisting = [] := by
  unfold ansibleResolveSecrets
  dsimp only
  repeat' split
  all_goals first
    | exact ansibleWithWorkspace_keys _ _ _ _ _ _ _ _ _ _ _
        (by simpa using hw) (by simpa using hk)
    | (constructor <;> simp_all)

theorem ansibleResolveSecrets_timeout (w : AnsibleWorld) (st : AnsibleSt)
    (sn jt : PyVal) (site : String) (au : PyVal)
    (hproc : w.proc = .timedOut) (hpi : st.procInvoked = false) :
    (ansibleResolveSecrets w st sn jt site au).2.procInvoked = false ∨
    ∃ cmd, (ansibleResolveSecrets w st sn jt site au).1 =
      .error (.timeoutExpired cmd) := by
  unfold ansibleResolveSecrets
  dsimp only
  repeat' split
  all_goals first
    | exact ansibleWithWorkspace_timeout _ _ _ _ _ _ _ _ _ _ _ hproc
        (by simpa using hpi)
    | (left; simp_all)

theorem ansibleTryBody_status (ev : PyVal) (w : AnsibleWorld)
    (st : AnsibleSt) :
    statusIn (ansibleTryBody ev w st).1 [200, 400, 500] := by
  unfold ansibleTryBody
  repeat' split
  all_goals first
    | exact statusIn_widen (ansibleResolveSecrets_status _ _ _ _ _ _)
    | simp [statusIn]

theorem ansibleTryBody_wsExists (ev : PyVal) (w : AnsibleWorld)
    (st : AnsibleSt) (hex : st.workspaceExists = false) :
    (ansibleTryBody ev w st).2.workspaceExists = false := by
  unfold ansibleTryBody
  repeat' split
  all_goals first
    | exact ansibleResolveSecrets_wsExists _ _ _ _ _ _ hex
    | simp_all

theorem ansibleTryBody_keys (ev : PyVal) (w : AnsibleWorld) (st : AnsibleSt)
    (hw : st.keyWrites = []) (hk : st.keyFilesExisting = []) :
    (∀ p ∈ (ansibleTryBody ev w st).2.keyWrites,
       p = ansibleSshKeyPath (ansibleWorkDir w)) ∧
    (ansibleTryBody ev w st).2.keyFilesExisting = [] := by
  unfold ansibleTryBody
  repeat' split
  all_goals first
    | exact ansibleResolveSecrets_keys _ _ _ _ _ _ hw hk
    | (constructor <;> simp_all)

theorem ansibleTryBody_timeout (ev : PyVal) (w : AnsibleWorld)
    (st : AnsibleSt) (hproc : w.proc = .timedOut)
    (hpi : st.procInvoked = false) :
    (ansibleTryBody ev w st).2.procInvoked = false ∨
    ∃ cmd, (ansibleTryBody ev w st).1 = .error (.timeoutExpired cmd) := by
  unfold ansibleTryBody
  repeat' split
  all_goals first
    | exact ansibleResolveSecrets_timeout _ _ _ _ _ _ hproc hpi
    | (left; simp_all)

theorem deployRunPipeline_status (w : DeployWorld) (st : DeploySt)
    (sn jt : PyVal) (site : String) (au ab : PyVal) :
    statusIn (deployRunPipeline w st sn jt site au ab).1 [200, 500] := by
  unfold deployRunPipeline
  dsimp only
  repeat' split
  all_goals simp [statusIn]

theorem deployRunPipeline_ws (w : DeployWorld) (st : DeploySt)
    (sn jt : PyVal) (site : String) (au ab : PyVal) :
    (deployRunPipeline w st sn jt site au ab).2.workspaceCreated = true ∧
    (deployRunPipeline w st sn jt site au ab).2.workspaceExists = true := by
  unfold deployRunPipeline
  dsimp only
  repeat' split
  all_goals simp

set_option linter.unusedTactic false in
theorem deployRunPipeline_keys (w : DeployWorld) (st : DeploySt)
    (sn jt : PyVal) (site : String) (au ab : PyVal)
    (hw : st.keyWrites = []) (hk : st.keyFilesExisting = []) :
    ((deployRunPipeline w st sn jt site au ab).2.keyWrites = [] ∧
     (deployRunPipeline w st sn jt site au ab).2.keyFilesExisting = []) ∨
    ((deployRunPipeline w st sn jt site au ab).2.keyWrites =
        [setupSshKeyPath w.home] ∧
     (deployRunPipeline w st sn jt site au ab).2.keyFilesExisting =
        [setupSshKeyPath w.home]) := by
  unfold deployRunPipeline
  dsimp only
  repeat' split
  all_goals first
    | (left; (constructor <;> simp_all); done)
    | (right; (constructor <;> simp_all); done)

theorem deployTryBody_status (ev : PyVal) (w : DeployWorld) (st : DeploySt) :
    statusIn (deployTryBody ev w st).1 [200, 400, 500] := by
  unfold deployTryBody
  repeat' split
  all_goals first
    | exact statusIn_widen (deployRunPipeline_status _ _ _ _ _ _ _)
    | simp [statusIn]

theorem deployTryBody_ws (ev : PyVal) (w : DeployWorld) (st : DeploySt)
    (hc : st.workspaceCreated = false) (he : st.workspaceExists = false) :
    ((deployTryBody ev w st).2.workspaceCreated = false ∧
     (deployTryBody ev w st).2.workspaceExists = false) ∨
    ((deployTryBody ev w st).2.workspaceCreated = true ∧
     (deployTryBody ev w st).2.workspaceExists = true) := by
  unfold deployTryBody
  repeat' split
  all_goals first
    | (right; exact deployRunPipeline_ws _ _ _ _ _ _ _)
    | (left; constructor <;> simp_all)

theorem deployTryBody_keys (ev : PyVal) (w : DeployWorld) (st : DeploySt)
    (hw : st.keyWrites = []) (hk : st.keyFilesExisting = []) :
    ((deployTryBody ev w st).2.keyWrites = [] ∧
     (deployTryBody ev w st).2.keyFilesExisting = []) ∨
    ((deployTryBody ev w st).2.keyWrites = [setupSshKeyPath w.home] ∧
     (deployTryBody ev w st).2.keyFilesExisting =
        [setupSshKeyPath w.home]) := by
  unfold deployTryBody
  repeat' split
  all_goals first
    | exact deployRunPipeline_keys _ _ _ _ _ _ _ hw hk
    | (left; constructor <;> simp_all)

theorem deploy_handler_wsExists (ev : PyVal) (w : DeployWorld) :
    (deploymentLambdaHandler ev w).workspaceExists = false := by
  have hws := deployTryBody_ws ev w deployInitSt rfl rfl
  unfold deploymentLambdaHandler
  dsimp only
  cases hr : (deployTryBody ev w deployInitSt).1 <;>
    rcases hws with ⟨hc, he⟩ | ⟨hc, he⟩ <;>
      simp [deployCleanup, hc, he]

theorem deploy_handler_status (ev : PyVal) (w : DeployWorld) :
    (deploymentLambdaHandler ev w).response.statusCode = 200 ∨
    (deploymentLambdaHandler ev w).response.statusCode = 400 ∨
    (deploymentLambdaHandler ev w).response.statusCode = 500 := by
  have h := deployTryBody_status ev w deployInitSt
  unfold deploymentLambdaHandler
  dsimp only
  cases hr : (deployTryBody ev w deployInitSt).1 with
  | ok resp =>
    rw [hr] at h
    simp only [statusIn] at h
    dsimp only
    simpa using h
  | error e => simp

theorem ansible_handler_wsExists (ev : PyVal) (w : AnsibleWorld) :
    (ansibleLambdaHandler ev w).workspaceExists = false := by
  have h := ansibleTryBody_wsExists ev w ansibleInitSt rfl
  unfold ansibleLambdaHandler
  cases hr : ansibleTryBody ev w ansibleInitSt with
  | mk res st =>
    rw [hr] at h
    cases res <;> exact h

theorem ansible_handler_keys (ev : PyVal) (w : AnsibleWorld) :
    (∀ p ∈ (ansibleLambdaHandler ev w).keyWrites,
       p = ansibleSshKeyPath (ansibleWorkDir w)) ∧
    (ansibleLambdaHandler ev w).keyFilesExisting = [] := by
  have h := ansibleTryBody_keys ev w ansibleInitSt rfl rfl
  unfold ansibleLambdaHandler
  cases hr : ansibleTryBody ev w ansibleInitSt with
  | mk res st =>
    rw [hr] at h
    cases res <;> exact h

theorem strHas_timeout (cmd : String) :
    strHas (pyStrExn (.timeoutExpired cmd)) "timed out after 900 seconds" := by
  refine ⟨("Command '" ++ cmd).data ++ "' ".data, [], ?_⟩
  show (("Command '" ++ cmd) ++ "' timed out after 900 seconds").data = _
  rw [strData_append]
  rw [List.append_nil, List.append_assoc]
  congr 1

theorem ansible_handler_timeout (ev : PyVal) (w : AnsibleWorld)
    (hproc : w.proc = .timedOut) :
    (ansibleLambdaHandler ev w).procInvoked = false ∨
    ((ansibleLambdaHandler ev w).response.statusCode = 500 ∧
     ∃ msg, bodyGet (ansibleLambdaHandler ev w).response "error" =
        some (.str msg) ∧ strHas msg "timed out after 900 seconds") := by
  have h := ansibleTryBody_timeout ev w ansibleInitSt hproc rfl
  unfold ansibleLambdaHandler
  cases hr : ansibleTryBody ev w ansibleInitSt with
  | mk res st =>
    rw [hr] at h
    rcases h with h | ⟨cmd, hcmd⟩
    · cases res <;> exact Or.inl h
    · cases res with
      | ok resp => simp at hcmd
      | error e =>
        right
        have he : e = .timeoutExpired cmd := by
          simpa using hcmd
        subst he
        refine ⟨rfl, pyStrExn (.timeoutExpired cmd), ?_, strHas_timeout cmd⟩
        simp [bodyGet, dictGet]

/-! ## Concrete example runs (used by the witnesses and counterexamples) -/

/-- A well-formed deployment request event. -/
def exEvent : PyVal := .dict [("service_name", .str "svc1"),
  ("jar_timestamp", .str "t1"), ("site", .str "sit1")]

/-- A Secrets Manager store holding the vm record (JSON text) and the ssh
key (plain text), keyed as ansible_lambda expects. -/
def exSecrets : String → Option SecretResp := fun sid =>
  if sid = "demoapp/vm/sit1" then
    some ⟨some "\x7b\"VM_HOSTNAME\": \"vm1\", \"VM_USERNAME\": \"adm\"\x7d",
      Option.none⟩
  else if sid = "demoapp/vm/ssh-key" then
    some ⟨some "KEYMATERIAL", Option.none⟩
  else Option.none

/-- A run of ansible_lambda in which the playbook exceeds the timeout. -/
def exTimeoutWorld : AnsibleWorld :=
  { secrets := exSecrets, staging := .embeddedDir, proc := .timedOut,
    env := [], tmpName := "x" }

/-- A run of ansible_lambda in which the playbook exits 0. -/
def exOkWorld : AnsibleWorld :=
  { exTimeoutWorld with proc := .completed 0 "out" "err" }

/-- An SSM Parameter Store with the whole record set for site `sit1`. -/
def exParams : String → Option String := fun name =>
  if name = "/demoapp/vm/sit1/hostname" then some "vm1"
  else if name = "/demoapp/vm/sit1/username" then some "adm"
  else if name = "/demoapp/vm/ssh-key" then some "KEY"
  else if name = "/demoapp/vm/sit1/datasource_url" then some "du"
  else if name = "/demoapp/vm/sit1/db_username" then some "db"
  else if name = "/demoapp/vm/sit1/db_password" then some "pw"
  else Option.none

/-- A well-formed deployment request event for deployment_lambda (bucket
parameters included). -/
def exDeployEvent : PyVal := .dict [("service_name", .str "svc1"),
  ("jar_timestamp", .str "t1"), ("site", .str "sit1"),
  ("ansible_s3_bucket", .str "b1"), ("artifacts_s3_bucket", .str "b2")]

/-- A successful run of deployment_lambda with HOME = `/root`. -/
def exDeployWorld : DeployWorld :=
  { params := exParams, s3Zip := some ["ansible/main.yml"],
    proc := .completed 0 "out" "err", env := [], tmpName := "y",
    home := "/root" }

/-! ## C1 — timeout handling (amended half) -/

/-- **C1, amended**: deployment_lambda's executor really does synthesize the
claimed `ExecutionResult` on timeout (success `false`, exit code −1, stderr
naming the timeout) and never raises; in ansible_lambda the `TimeoutExpired`
escapes `_run_playbook` (see the counterexample) and is caught only at the
handler boundary, which still returns a status-500 response whose error text
names the 900-second timeout. -/
theorem timeout_reported_as_500 :
    executeAnsiblePlaybook .timedOut =
      { returncode := -1, stdout := "",
        stderr := "Execution timed out after 15 minutes", success := false } ∧
    strHas "Execution timed out after 15 minutes" "timed out" ∧
    ∀ (ev : PyVal) (w : AnsibleWorld), w.proc = .timedOut →
      (ansibleLambdaHandler ev w).procInvoked = true →
      (ansibleLambdaHandler ev w).response.statusCode = 500 ∧
      ∃ msg, bodyGet (ansibleLambdaHandler ev w).response "error" =
          some (.str msg) ∧ strHas msg "timed out after 900 seconds" := by
  refine ⟨rfl, ⟨"Execution ".data, " after 15 minutes".data, by decide⟩, ?_⟩
  intro ev w hproc hinv
  rcases ansible_handler_timeout ev w hproc with h | h
  · rw [hinv] at h
    exact absurd h (by simp)
  · exact h

/-- **C1, witness**: the amended timeout behaviour evaluated on a concrete
run that reaches the playbook invocation and times out. -/
theorem timeout_reported_as_500_witness :
    (ansibleLambdaHandler exEvent exTimeoutWorld).procInvoked = true ∧
    (ansibleLambdaHandler exEvent exTimeoutWorld).response.statusCode = 500 ∧
    ∃ msg, bodyGet (ansibleLambdaHandler exEvent exTimeoutWorld).response
        "error" = some (.str msg) ∧
      strHas msg "timed out after 900 seconds" :=
  ⟨rfl, timeout_reported_as_500.2.2 exEvent exTimeoutWorld rfl rfl⟩

/-! ## C2 — workspace removed on every exit path -/

/-- **C2**: in both pipeline variants, whenever the run created a workspace
directory, that directory no longer exists when the handler returns — the
removal sits in a `finally:` (ansible_lambda line 151–152) respectively in
`cleanup` invoked from the handler's `finally:` (deployment_lambda lines
298–300), so it runs on the success, failure, timeout and exception paths
alike. -/
theorem workspace_removed_on_all_paths :
    ∀ (ev : PyVal) (wa : AnsibleWorld) (wd : DeployWorld),
      ((ansibleLambdaHandler ev wa).workspaceCreated = true →
        (ansibleLambdaHandler ev wa).workspaceExists = false) ∧
      ((deploymentLambdaHandler ev wd).workspaceCreated = true →
        (deploymentLambdaHandler ev wd).workspaceExists = false) :=
  fun ev wa wd =>
    ⟨fun _ => ansible_handler_wsExists ev wa,
     fun _ => deploy_handler_wsExists ev wd⟩

/-- **C2, witness**: a concrete successful run of each handler that did
create a workspace, and in which the workspace is gone afterwards. -/
theorem workspace_removed_on_all_paths_witness :
    ((ansibleLambdaHandler exEvent exOkWorld).workspaceCreated = true ∧
     (ansibleLambdaHandler exEvent exOkWorld).workspaceExists = false) ∧
    ((deploymentLambdaHandler exDeployEvent exDeployWorld).workspaceCreated
        = true ∧
     (deploymentLambdaHandler exDeployEvent exDeployWorld).workspaceExists
        = false) :=
  ⟨⟨rfl, (workspace_removed_on_all_paths exEvent exOkWorld exDeployWorld).1
      rfl⟩,
   ⟨rfl, (workspace_removed_on_all_paths exDeployEvent exOkWorld
      exDeployWorld).2 rfl⟩⟩

/-! ## C3 — where credential material is written -/

theorem deployCleanup_keyWrites (workDir : String) (st : DeploySt) :
    (deployCleanup workDir st).keyWrites = st.keyWrites := by
  unfold deployCleanup
  split <;> rfl

theorem deploy_handler_keys (ev : PyVal) (w : DeployWorld)
    (hs : strStarts (setupSshKeyPath w.home) (deployWorkDir w ++ "/")
      = false)
    (hne : setupSshKeyPath w.home ≠ deployWorkDir w) :
    (∀ p ∈ (deploymentLambdaHandler ev w).keyWrites,
       p = setupSshKeyPath w.home) ∧
    (deploymentLambdaHandler ev w).keyFilesExisting =
      (deploymentLambdaHandler ev w).keyWrites := by
  have hk := deployTryBody_keys ev w deployInitSt rfl rfl
  have hb : (setupSshKeyPath w.home != deployWorkDir w) = true := by
    simp [bne_iff_ne, hne]
  unfold deploymentLambdaHandler
  dsimp only
  cases hr : (deployTryBody ev w deployInitSt).1 <;>
    dsimp only <;>
    unfold deployCleanup <;>
    rcases hk with ⟨h1, h2⟩ | ⟨h1, h2⟩ <;>
    split <;>
    simp_all [List.filter, hs, hb]

/-- **C3, counterexample**: a concrete successful run of deployment_lambda
writes the SSH private key at `/root/.ssh/id_rsa` — not under the per-run
workspace — and the key file still exists after the handler returned and
the workspace was torn down. -/
theorem deployment_key_persists_outside_workspace :
    (deploymentLambdaHandler exDeployEvent exDeployWorld).keyWrites =
      ["/root/.ssh/id_rsa"] ∧
    strStarts "/root/.ssh/id_rsa" (deployWorkDir exDeployWorld) = false ∧
    (deploymentLambdaHandler exDeployEvent exDeployWorld).workspaceExists =
      false ∧
    (deploymentLambdaHandler exDeployEvent exDeployWorld).keyFilesExisting =
      ["/root/.ssh/id_rsa"] := ⟨rfl, rfl, rfl, rfl⟩

/-- **C3, amended**: ansible_lambda's `_write_ssh_key` writes credential
material only at `work_dir/id_rsa` inside the per-run workspace, and no
credential file survives the handler's return; deployment_lambda's
`setup_ssh_key` instead writes the key at `~/.ssh/id_rsa`, outside the
workspace, and (whenever HOME does not collide with the workspace path)
that file persists untouched after workspace teardown. -/
theorem ssh_key_write_locations :
    (∀ (ev : PyVal) (w : AnsibleWorld),
      (∀ p ∈ (ansibleLambdaHandler ev w).keyWrites,
        p = ansibleSshKeyPath (ansibleWorkDir w)) ∧
      (ansibleLambdaHandler ev w).keyFilesExisting = []) ∧
    (∀ (ev : PyVal) (w : DeployWorld),
      strStarts (setupSshKeyPath w.home) (deployWorkDir w ++ "/") = false →
      setupSshKeyPath w.home ≠ deployWorkDir w →
      (∀ p ∈ (deploymentLambdaHandler ev w).keyWrites,
        p = setupSshKeyPath w.home) ∧
      (deploymentLambdaHandler ev w).keyFilesExisting =
        (deploymentLambdaHandler ev w).keyWrites) :=
  ⟨ansible_handler_keys, deploy_handler_keys⟩

/-- **C3, witness**: the write-location facts evaluated on concrete runs of
both handlers. -/
theorem ssh_key_write_locations_witness :
    (ansibleLambdaHandler exEvent exOkWorld).keyFilesExisting = [] ∧
    "/root/.ssh/id_rsa" = setupSshKeyPath exDeployWorld.home ∧
    (deploymentLambdaHandler exDeployEvent exDeployWorld).keyFilesExisting =
      (deploymentLambdaHandler exDeployEvent exDeployWorld).keyWrites :=
  ⟨(ssh_key_write_locations.1 exEvent exOkWorld).2,
   (ssh_key_write_locations.2 exDeployEvent exDeployWorld rfl
      (by decide)).1 "/root/.ssh/id_rsa" (by decide),
   (ssh_key_write_locations.2 exDeployEvent exDeployWorld rfl
      (by decide)).2⟩

/-! ## C9 — total handler with bounded status codes -/

/-- **C9**: for every input event value — dict or not, malformed body or
not — and every behaviour of the external world, ansible_lambda's
`lambda_handler` returns a response whose `statusCode` is 200, 400 or 500;
the catch-all `except Exception` converts every raised exception into a 500
response, so no exception propagates to the caller. -/
theorem handler_status_codes_total :
    ∀ (ev : PyVal) (w : AnsibleWorld),
      (ansibleLambdaHandler ev w).response.statusCode = 200 ∨
      (ansibleLambdaHandler ev w).response.statusCode = 400 ∨
      (ansibleLambdaHandler ev w).response.statusCode = 500 := by
  intro ev w
  have h := ansibleTryBody_status ev w ansibleInitSt
  unfold ansibleLambdaHandler
  cases hr : ansibleTryBody ev w ansibleInitSt with
  | mk res st =>
    rw [hr] at h
    cases res with
    | ok resp =>
      dsimp only
      simp only [statusIn] at h
      simpa using h
    | error e => simp

/-! ## C6 — missing required fields: 400 and no secret-store access -/

/-- **C6**: for every request event (a JSON object without an HTTP `body`
wrapper, whose `site` field — if present — is a string) in which
`service_name` or `jar_timestamp` is missing or empty, both handlers return
status 400 and make no call to their secret store: validation sits before
the first `get_secret_value` / `get_parameter` call in both variants. -/
theorem missing_fields_400_no_secret_calls :
    ∀ (kvs : List (String × PyVal)) (wa : AnsibleWorld) (wd : DeployWorld),
      dictGet kvs "body" = Option.none →
      (dictGet kvs "site" = Option.none ∨
        ∃ s, dictGet kvs "site" = some (.str s)) →
      (pyTruthy ((dictGet kvs "service_name").getD .none) = false ∨
       pyTruthy ((dictGet kvs "jar_timestamp").getD .none) = false) →
      ((ansibleLambdaHandler (.dict kvs) wa).response.statusCode = 400 ∧
       (ansibleLambdaHandler (.dict kvs) wa).secretCalls = 0) ∧
      ((deploymentLambdaHandler (.dict kvs) wd).response.statusCode = 400 ∧
       (deploymentLambdaHandler (.dict kvs) wd).ssmCalls = 0) := by
  intro kvs wa wd hbody hsite hmiss
  have hcondA : (!pyTruthy ((dictGet kvs "service_name").getD .none) ||
      !pyTruthy ((dictGet kvs "jar_timestamp").getD .none)) = true := by
    rcases hmiss with h | h <;> simp [h]
  have htbA : ansibleTryBody (.dict kvs) wa ansibleInitSt =
      (.ok ⟨400, [("error",
        .str "service_name and jar_timestamp required")]⟩, ansibleInitSt) := by
    unfold ansibleTryBody ansibleParseBody
    dsimp only
    rw [hbody]
    dsimp only [pyGet, pyGetD]
    rcases hsite with h | ⟨s, h⟩ <;> rw [h] <;>
      simp only [Option.getD_none, Option.getD_some] <;>
      dsimp only [pyLowerMethod] <;> rw [if_pos hcondA]
  have hcondD : (!(pyTruthy ((dictGet kvs "service_name").getD .none) &&
      pyTruthy ((dictGet kvs "jar_timestamp").getD .none) &&
      pyTruthy ((dictGet kvs "artifacts_s3_bucket").getD
        (optStrToPy (getenvOpt wd.env "AWS_S3_BUCKET_REPOSITORY"))) &&
      pyTruthy ((dictGet kvs "ansible_s3_bucket").getD
        (optStrToPy (getenvOpt wd.env "ANSIBLE_S3_BUCKET"))))) = true := by
    rcases hmiss with h | h <;> simp [h]
  have htbD : deployTryBody (.dict kvs) wd deployInitSt =
      (.ok ⟨400, [("error",
        .str "Missing required parameters: service_name, jar_timestamp, artifacts_s3_bucket, ansible_s3_bucket")]⟩,
       deployInitSt) := by
    unfold deployTryBody deployParseBody
    dsimp only
    rw [hbody]
    dsimp only [pyGet, pyGetD]
    rcases hsite with h | ⟨s, h⟩ <;> rw [h] <;>
      simp only [Option.getD_none, Option.getD_some] <;>
      dsimp only [pyUpperMethod] <;> rw [if_pos hcondD]
  constructor
  · unfold ansibleLambdaHandler
    rw [htbA]
    exact ⟨rfl, rfl⟩
  · unfold deploymentLambdaHandler
    rw [htbD]
    exact ⟨rfl, rfl⟩

/-- **C6, witness**: a concrete request missing `service_name` gets a 400
from both handlers without any secret-store call. -/
theorem missing_fields_400_no_secret_calls_witness :
    ((ansibleLambdaHandler (.dict [("jar_timestamp", .str "t1")])
        exOkWorld).response.statusCode = 400 ∧
     (ansibleLambdaHandler (.dict [("jar_timestamp", .str "t1")])
        exOkWorld).secretCalls = 0) ∧
    ((deploymentLambdaHandler (.dict [("jar_timestamp", .str "t1")])
        exDeployWorld).response.statusCode = 400 ∧
     (deploymentLambdaHandler (.dict [("jar_timestamp", .str "t1")])
        exDeployWorld).ssmCalls = 0) :=
  missing_fields_400_no_secret_calls [("jar_timestamp", .str "t1")]
    exOkWorld exDeployWorld rfl (Or.inl rfl) (Or.inl rfl)
